import Mathlib

/-!
Verification of the rustflix record manager (user / video / view commands).

The definitions below are a shallow embedding of the Rust source:

* pure helpers (`has_id`, `has_email`, `find_user`, `find_video`, ...) become
  Lean functions on lists;
* the random number generator consumed by `generate_valid_id` becomes an
  explicit stream of draws (`List Nat`), one element per `rng.gen_range` call;
* the interactive stdin consumed by the confirmation prompts becomes an
  explicit stream of lines (`List String`), one element per `read_line` call,
  where an exhausted stream models an operator who never answers (the Rust
  code blocks in that case), so prompting handlers return `Option`;
* each command handler becomes a function from the parsed content of its
  collection file (`Option (List _)`, `none` = file absent) and its arguments
  to the list of I/O events it performs (file reads / writes, stdout / stderr
  messages, panics) together with the new content of its collection file.

Machine integers (`u32` ids and view counters) are modelled as `Nat`; the one
place where overflow matters (adding views) wraps explicitly modulo `2 ^ 32`.
-/

/-- Observable effect of a handler: file system access, terminal output
(`println!` → `outMsg`, `eprintln!` → `errMsg`) and `panic!`. -/
inductive Event where
  | readFile (path : String)
  | writeFile (path : String)
  | outMsg (msg : String)
  | errMsg (msg : String)
  | panicked (msg : String)
deriving DecidableEq, Repr

/-- Models the load prelude of every handler: `if path.exists()` then
`File::open` + `bincode::deserialize_from` (a read of `path`), else no
file-system access at all besides the existence check. -/
def read_events {α : Type} (path : String) (fs : Option α) : List Event :=
  match fs with
  | some _ => [Event.readFile path]
  | none => []

/-- Models Rust `char::is_whitespace` for the characters that can occur in a
line read from stdin. -/
def rust_is_whitespace (c : Char) : Bool :=
  c = ' ' ∨ c = '\t' ∨ c = '\n' ∨ c = '\r'

/-- Models Rust `str::trim`: strip whitespace from both ends. -/
def rust_trim (s : String) : String :=
  ⟨((s.data.dropWhile rust_is_whitespace).reverse.dropWhile rust_is_whitespace).reverse⟩

/-- Models Rust `str::to_lowercase` (ASCII, which is all the prompts compare). -/
def rust_to_lowercase (s : String) : String :=
  ⟨s.data.map Char.toLower⟩

namespace user_subcommands

/-- Rust `struct User` from `user_subcommands.rs` (`id: u32` as `Nat`). -/
structure User where
  id : Nat
  name : String
  email : String
deriving DecidableEq, Repr

instance : Inhabited User := ⟨⟨0, "", ""⟩⟩

/-- Rust `struct UserQuery`: one optional predicate per queryable field. -/
structure UserQuery where
  id : Option Nat
  name : Option String
  email : Option String
deriving DecidableEq, Repr

/-- Rust `struct CreateUser`. -/
structure CreateUser where
  name : String
  email : String

/-- Rust `struct UpdateUser`: query predicates plus optional new values. -/
structure UpdateUser where
  query_id : Option Nat
  query_name : Option String
  query_email : Option String
  new_name : Option String
  new_email : Option String

/-- Rust `struct ShowUser` (the `list` arguments). -/
structure ShowUser where
  all : Bool
  id : Option Nat
  name : Option String
  email : Option String

/-- Rust `fn has_id`: linear scan for a user with the given id. -/
def has_id : List User → Nat → Bool
  | [], _ => false
  | u :: rest, i => if u.id = i then true else has_id rest i

/-- Rust `fn has_email`: linear scan for a user with the given email. -/
def has_email : List User → String → Bool
  | [], _ => false
  | u :: rest, e => if u.email = e then true else has_email rest e

/-- Rust `fn generate_valid_id`: draw from the rng, retry while the draw
collides with an existing id.  `draws` is the stream of rng outputs; `none`
models the (probability-zero only if the stream is fair) case that every
available draw collides, i.e. the loop has not yet terminated. -/
def generate_valid_id : List Nat → List User → Option Nat
  | [], _ => none
  | d :: rest, users => if has_id users d then generate_valid_id rest users else some d

/-- Rust `struct MatchedQueries`: per-predicate match counters. -/
structure MatchedQueries where
  id : Nat
  name : Nat
  email : Nat
deriving DecidableEq, Repr

/-- Rust `enum FindError`. -/
inductive FindError where
  | NoUserFound
  | MultipleUsersFound (counts : MatchedQueries)
deriving DecidableEq, Repr

/-- The per-record id test of `find_user`:
`if let Some(id) = query.id { user.id == id }`. -/
def id_hit (query : UserQuery) (user : User) : Bool :=
  match query.id with
  | some i => decide (user.id = i)
  | none => false

/-- The per-record name test of `find_user`. -/
def name_hit (query : UserQuery) (user : User) : Bool :=
  match query.name with
  | some n => decide (user.name = n)
  | none => false

/-- The per-record email test of `find_user`. -/
def email_hit (query : UserQuery) (user : User) : Bool :=
  match query.email with
  | some e => decide (user.email = e)
  | none => false

/-- A record "matches the query" when at least one present predicate accepts
it; this is exactly the condition under which the `find_user` loop pushes the
record (each branch of its if/continue chain fires on one of these tests). -/
def any_hit (query : UserQuery) (user : User) : Bool :=
  id_hit query user || name_hit query user || email_hit query user

/-- State accumulated by the `for user in users` loop of `find_user`:
the pushed records and the three per-predicate counters. -/
structure ScanState where
  found : List User
  id_matches : Nat
  name_matches : Nat
  email_matches : Nat
deriving DecidableEq, Repr

/-- The scan loop of Rust `fn find_user`: for each record, the first present
predicate that matches pushes the record, bumps that predicate's counter and
`continue`s to the next record. -/
def find_user_scan (query : UserQuery) : List User → ScanState
  | [] => ⟨[], 0, 0, 0⟩
  | user :: rest =>
    let r := find_user_scan query rest
    if id_hit query user then ⟨user :: r.found, r.id_matches + 1, r.name_matches, r.email_matches⟩
    else if name_hit query user then ⟨user :: r.found, r.id_matches, r.name_matches + 1, r.email_matches⟩
    else if email_hit query user then ⟨user :: r.found, r.id_matches, r.name_matches, r.email_matches + 1⟩
    else r

/-- Rust `fn find_user`: run the scan, then classify by the number of pushed
records (0 → `NoUserFound`, more than 1 → `MultipleUsersFound` with the
counters, exactly 1 → that record, read off as `found_users[0]`). -/
def find_user (users : List User) (query : UserQuery) : Except FindError User :=
  let r := find_user_scan query users
  if r.found.length = 0 then .error .NoUserFound
  else if r.found.length > 1 then
    .error (.MultipleUsersFound ⟨r.id_matches, r.name_matches, r.email_matches⟩)
  else .ok (r.found.headD default)

/-- The loop of Rust `fn find_users` (multi-match mode): push each record on
its first matching present predicate, no counters. -/
def find_users_loop (query : UserQuery) : List User → List User
  | [] => []
  | user :: rest =>
    if id_hit query user then user :: find_users_loop query rest
    else if name_hit query user then user :: find_users_loop query rest
    else if email_hit query user then user :: find_users_loop query rest
    else find_users_loop query rest

/-- Rust `fn find_users`: error only when nothing matched. -/
def find_users (users : List User) (query : UserQuery) : Except FindError (List User) :=
  let found := find_users_loop query users
  if found.length = 0 then .error .NoUserFound else .ok found

end user_subcommands

namespace utilities

/-- The read/validate loop of Rust `utilities::confirm`: one stream element
per `read_line`; each line is lowercased then trimmed and matched against
yes/no/empty.  Returns the stderr events it printed and the final answer
(`none` when the stream ran out before a valid answer, i.e. the Rust loop is
still blocked on stdin). -/
def confirm_loop : List String → Option String → Option Bool → List Event × Option Bool
  | [], _, _ => ([], none)
  | s :: rest, cancel_message, dflt =>
    let t := rust_trim (rust_to_lowercase s)
    if t = "y" ∨ t = "yes" then ([], some true)
    else if t = "n" ∨ t = "no" then
      ((match cancel_message with
        | some m => [Event.outMsg m]
        | none => []), some false)
    else if t = "" then
      match dflt with
      | some true => ([], some true)
      | some false =>
        ((match cancel_message with
          | some m => [Event.outMsg m]
          | none => []), some false)
      | none =>
        let r := confirm_loop rest cancel_message dflt
        (Event.errMsg "Invalid input" :: r.1, r.2)
    else
      let r := confirm_loop rest cancel_message dflt
      (Event.errMsg "Invalid input" :: r.1, r.2)

/-- Rust `utilities::confirm`: print the prompt (with the default answer
capitalised), the optional post-prompt, then run the read loop. -/
def confirm (inputs : List String) (prompt : String) (post_prompt : Option String)
    (cancel_message : Option String) (dflt : Option Bool) : List Event × Option Bool :=
  let header :=
    Event.outMsg (prompt ++ " [" ++ (if dflt = some true then "Y" else "y") ++ "]es/[" ++
      (if dflt = some false then "N" else "n") ++ "]o")
  let posts :=
    match post_prompt with
    | some p => [Event.outMsg p]
    | none => []
  let r := confirm_loop inputs cancel_message dflt
  (header :: posts ++ r.1, r.2)

end utilities

namespace video_subcommands

/-- Rust `struct Video` (`id`, `views`: `u32` as `Nat`). -/
structure Video where
  id : Nat
  name : String
  views : Nat
deriving DecidableEq, Repr

instance : Inhabited Video := ⟨⟨0, "", 0⟩⟩

/-- Rust `struct VideoQuery`. -/
structure VideoQuery where
  id : Option Nat
  name : Option String
deriving DecidableEq, Repr

/-- Rust `struct CreateVideo`. -/
structure CreateVideo where
  name : String

/-- Rust `struct UpdateVideo`. -/
structure UpdateVideo where
  query_id : Option Nat
  query_name : Option String
  new_name : Option String
  new_views : Option Nat

/-- Rust `struct ListVideo`. -/
structure ListVideo where
  all : Bool
  id : Option Nat
  name : Option String

/-- The collection file used by the video create/update/delete/list handlers:
`concat!(env!("HOME"), "/.rustflix/videos.bc")`, a path under the home
directory fixed at compile time. -/
def videos_path (home : String) : String := home ++ "/.rustflix/videos.bc"

/-- Rust `fn has_id` (video module). -/
def has_id : List Video → Nat → Bool
  | [], _ => false
  | v :: rest, i => if v.id = i then true else has_id rest i

/-- Rust `fn generate_valid_id` (video module); `draws` is the rng stream. -/
def generate_valid_id : List Nat → List Video → Option Nat
  | [], _ => none
  | d :: rest, videos => if has_id videos d then generate_valid_id rest videos else some d

/-- Rust `struct MatchedQueries` (video module). -/
structure MatchedQueries where
  id : Nat
  name : Nat
deriving DecidableEq, Repr

/-- Rust `enum FindError` (video module). -/
inductive FindError where
  | NoVideoFound
  | MultipleVideosFound (counts : MatchedQueries)
deriving DecidableEq, Repr

/-- The per-record id test of `find_video`. -/
def id_hit (query : VideoQuery) (video : Video) : Bool :=
  match query.id with
  | some i => decide (video.id = i)
  | none => false

/-- The per-record name test of `find_video`. -/
def name_hit (query : VideoQuery) (video : Video) : Bool :=
  match query.name with
  | some n => decide (video.name = n)
  | none => false

/-- A record matches the query when at least one present predicate accepts it
(the push condition of the `find_video` loop). -/
def any_hit (query : VideoQuery) (video : Video) : Bool :=
  id_hit query video || name_hit query video

/-- State accumulated by the `for video in videos` loop of `find_video`. -/
structure ScanState where
  found : List Video
  id_matches : Nat
  name_matches : Nat
deriving DecidableEq, Repr

/-- The scan loop of Rust `fn find_video`: first matching present predicate
pushes the record, bumps its counter and `continue`s. -/
def find_video_scan (query : VideoQuery) : List Video → ScanState
  | [] => ⟨[], 0, 0⟩
  | video :: rest =>
    let r := find_video_scan query rest
    if id_hit query video then ⟨video :: r.found, r.id_matches + 1, r.name_matches⟩
    else if name_hit query video then ⟨video :: r.found, r.id_matches, r.name_matches + 1⟩
    else r

/-- Rust `fn find_video`: classify the scan by pushed-record count. -/
def find_video (videos : List Video) (query : VideoQuery) : Except FindError Video :=
  let r := find_video_scan query videos
  if r.found.length = 0 then .error .NoVideoFound
  else if r.found.length > 1 then
    .error (.MultipleVideosFound ⟨r.id_matches, r.name_matches⟩)
  else .ok (r.found.headD default)

/-- The loop of Rust `fn find_videos` (multi-match mode). -/
def find_videos_loop (query : VideoQuery) : List Video → List Video
  | [] => []
  | video :: rest =>
    if id_hit query video then video :: find_videos_loop query rest
    else if name_hit query video then video :: find_videos_loop query rest
    else find_videos_loop query rest

/-- Rust `fn find_videos`: error only when nothing matched. -/
def find_videos (videos : List Video) (query : VideoQuery) : Except FindError (List Video) :=
  let found := find_videos_loop query videos
  if found.length = 0 then .error .NoVideoFound else .ok found

end video_subcommands

namespace user_subcommands

/-- The collection file used by every user handler: `Path::new("users.bc")`,
relative to the working directory. -/
def users_path : String := "users.bc"

/-- Models the `derive(Debug)` rendering of a `User` used by `"{:?}"` prints. -/
def user_debug (u : User) : String :=
  "User(id: " ++ toString u.id ++ ", name: " ++ u.name ++ ", email: " ++ u.email ++ ")"

/-- Rust `fn handle_create_user`: load, reject duplicate emails, allocate an
id, append, persist, report.  `draws` feeds `generate_valid_id`; the result is
`none` only when that loop has not terminated on the given stream. -/
def handle_create_user (fs : Option (List User)) (create_user : CreateUser)
    (draws : List Nat) : Option (List Event × Option (List User)) :=
  let users := fs.getD []
  let revts := read_events users_path fs
  if has_email users create_user.email then
    some (revts ++ [Event.errMsg "User not generated. Given email already exists"], fs)
  else
    match generate_valid_id draws users with
    | none => none
    | some id =>
      let user : User := ⟨id, create_user.name, create_user.email⟩
      some (revts ++ [Event.writeFile users_path,
        Event.outMsg "User created successfully",
        Event.outMsg ("ID: " ++ toString id)], some (users ++ [user]))

/-- The diagnostic stderr lines printed when a user query is ambiguous. -/
def multiple_users_events (verb : String) (has_id_q has_name_q has_email_q : Bool)
    (counts : MatchedQueries) : List Event :=
  Event.errMsg (verb ++ " failed. Multiple users found from given query.") ::
    ((if has_id_q then [Event.errMsg ("ID matches: " ++ toString counts.id)] else []) ++
     (if has_name_q then [Event.errMsg ("Name matches: " ++ toString counts.name)] else []) ++
     (if has_email_q then [Event.errMsg ("Email matches: " ++ toString counts.email)] else []))

/-- Rust `fn handle_update_user`: reject an empty query before touching the
file, load, resolve the query, re-locate the unique match by identity
(`iter().position(|u| u == user)`, the `none` arm being the
"found but its index wasn't" panic), apply the provided new values in place,
persist, report the changes. -/
def handle_update_user (fs : Option (List User)) (update_user : UpdateUser) :
    List Event × Option (List User) :=
  if update_user.query_id = none ∧ update_user.query_name = none ∧
      update_user.query_email = none then
    ([Event.errMsg "No query given. Please provide an ID, name, or email"], fs)
  else
    let users := fs.getD []
    let revts := read_events users_path fs
    let user_query : UserQuery :=
      ⟨update_user.query_id, update_user.query_name, update_user.query_email⟩
    match find_user users user_query with
    | .error .NoUserFound =>
      (revts ++ [Event.errMsg "Update failed. No user found from given query."], fs)
    | .error (.MultipleUsersFound counts) =>
      (revts ++ multiple_users_events "Update" update_user.query_id.isSome
        update_user.query_name.isSome update_user.query_email.isSome counts, fs)
    | .ok user =>
      match users.findIdx? (fun u => decide (u = user)) with
      | none =>
        (revts ++ [Event.panicked "User was found but its index wasn't. This should never happen."], fs)
      | some user_index =>
        let og_user_state := users.getD user_index default
        let users1 :=
          match update_user.new_name with
          | some name => users.set user_index { users.getD user_index default with name := name }
          | none => users
        let users2 :=
          match update_user.new_email with
          | some email => users1.set user_index { users1.getD user_index default with email := email }
          | none => users1
        (revts ++ [Event.writeFile users_path, Event.outMsg "User updated successfully."] ++
          (if update_user.new_email.isSome then
            [Event.outMsg ("Email changed from " ++ og_user_state.email ++ " to " ++
              (users2.getD user_index default).email)]
           else []) ++
          (if update_user.new_name.isSome then
            [Event.outMsg ("Name changed from " ++ og_user_state.name ++ " to " ++
              (users2.getD user_index default).name)]
           else []), some users2)

/-- Outcome of the hand-written confirmation loop inside `handle_delete_user`. -/
inductive Answer where
  | accept
  | cancel
deriving DecidableEq, Repr

/-- The read loop of `handle_delete_user`: each line is trimmed then
lowercased; `n`/`no` cancels (printing the cancel line), an empty line falls
through to the break (the affirmative default), anything that is not
`y`/`yes` reprompts, and `y`/`yes` breaks. -/
def delete_prompt_loop : List String → List Event × Option Answer
  | [] => ([], none)
  | s :: rest =>
    let input := rust_to_lowercase (rust_trim s)
    if input = "n" ∨ input = "no" then ([Event.outMsg "User deletion cancelled."], some .cancel)
    else if input = "" then ([], some .accept)
    else if input ≠ "y" ∧ input ≠ "yes" then
      let r := delete_prompt_loop rest
      (Event.errMsg "Invalid input" :: r.1, r.2)
    else ([], some .accept)

/-- Rust `fn handle_delete_user`: reject an empty query before touching the
file, load, resolve, re-locate by identity, prompt for confirmation with the
record's debug rendering, and only on an affirmative answer remove the record
and persist. -/
def handle_delete_user (fs : Option (List User)) (user_query : UserQuery)
    (inputs : List String) : Option (List Event × Option (List User)) :=
  if user_query.id = none ∧ user_query.name = none ∧ user_query.email = none then
    some ([Event.errMsg "No query given. Please provide an ID, name, or email"], fs)
  else
    let users := fs.getD []
    let revts := read_events users_path fs
    match find_user users user_query with
    | .error .NoUserFound =>
      some (revts ++ [Event.errMsg "Delete failed. No user found from given query."], fs)
    | .error (.MultipleUsersFound counts) =>
      some (revts ++ multiple_users_events "Delete" user_query.id.isSome
        user_query.name.isSome user_query.email.isSome counts, fs)
    | .ok user =>
      match users.findIdx? (fun u => decide (u = user)) with
      | none =>
        some (revts ++ [Event.panicked "User was found but its index wasn't. This should never happen."], fs)
      | some user_index =>
        let prompt :=
          Event.outMsg ("Are you sure you want to remove this user? ([Y]es/[n]o)\n" ++
            user_debug user)
        match delete_prompt_loop inputs with
        | (_, none) => none
        | (es, some .cancel) => some (revts ++ prompt :: es, fs)
        | (es, some .accept) =>
          some (revts ++ prompt :: es ++
            [Event.writeFile users_path, Event.outMsg "User deleted successfully."],
            some (users.eraseIdx user_index))

/-- Rust `fn handle_list_users`: load first, print everything in `--all`
mode, otherwise reject an empty query, otherwise print every match of
`find_users` (whose only error is `NoUserFound`; any other error value would
hit the `unwrap`). -/
def handle_list_users (fs : Option (List User)) (show_user : ShowUser) :
    List Event × Option (List User) :=
  let users := fs.getD []
  let revts := read_events users_path fs
  if show_user.all then
    (revts ++ users.map (fun u => Event.outMsg (user_debug u)), fs)
  else if show_user.id = none ∧ show_user.name = none ∧ show_user.email = none then
    (revts ++ [Event.errMsg "No query given. Please provide an ID, name, or email"], fs)
  else
    let user_query : UserQuery := ⟨show_user.id, show_user.name, show_user.email⟩
    match find_users users user_query with
    | .error .NoUserFound => (revts ++ [Event.errMsg "No user found from given query."], fs)
    | .error (.MultipleUsersFound _) =>
      (revts ++ [Event.panicked "called `Result::unwrap()` on an `Err` value"], fs)
    | .ok found_users =>
      (revts ++ found_users.map (fun u => Event.outMsg (user_debug u)), fs)

end user_subcommands

namespace video_subcommands

/-- Models the `derive(Debug)` rendering of a `Video` used by `"{:?}"` prints. -/
def video_debug (v : Video) : String :=
  "Video(id: " ++ toString v.id ++ ", name: " ++ v.name ++ ", views: " ++ toString v.views ++ ")"

/-- Rust `fn handle_create_video`: load from the home-directory path,
allocate an id, append with zero views, persist, report. -/
def handle_create_video (home : String) (fs : Option (List Video))
    (create_video : CreateVideo) (draws : List Nat) :
    Option (List Event × Option (List Video)) :=
  let videos := fs.getD []
  let revts := read_events (videos_path home) fs
  match generate_valid_id draws videos with
  | none => none
  | some id =>
    let video : Video := ⟨id, create_video.name, 0⟩
    some (revts ++ [Event.writeFile (videos_path home),
      Event.outMsg "Video created successfully",
      Event.outMsg ("ID: " ++ toString id)], some (videos ++ [video]))

/-- The diagnostic stderr lines printed when a video query is ambiguous. -/
def multiple_videos_events (verb : String) (has_id_q has_name_q : Bool)
    (counts : MatchedQueries) : List Event :=
  Event.errMsg (verb ++ " failed. Multiple videos found from given query.") ::
    ((if has_id_q then [Event.errMsg ("ID matches: " ++ toString counts.id)] else []) ++
     (if has_name_q then [Event.errMsg ("Name matches: " ++ toString counts.name)] else []))

/-- Rust `fn handle_update_video`: reject an empty query before touching the
file, load, resolve, re-locate by identity, apply a provided new name in
place, and when a new view count was provided run `utilities::confirm`
(affirmative default, abort message on decline) before persisting.  Note the
Rust code never assigns the new view count to the record; only the prompt
mentions it. -/
def handle_update_video (home : String) (fs : Option (List Video))
    (update_video : UpdateVideo) (inputs : List String) :
    Option (List Event × Option (List Video)) :=
  if update_video.query_id = none ∧ update_video.query_name = none then
    some ([Event.errMsg "No query given. Please provide an ID or name"], fs)
  else
    let videos := fs.getD []
    let revts := read_events (videos_path home) fs
    let video_query : VideoQuery := ⟨update_video.query_id, update_video.query_name⟩
    match find_video videos video_query with
    | .error .NoVideoFound =>
      some (revts ++ [Event.errMsg "Update failed. No video found from given query."], fs)
    | .error (.MultipleVideosFound counts) =>
      some (revts ++ multiple_videos_events "Update" update_video.query_id.isSome
        update_video.query_name.isSome counts, fs)
    | .ok video =>
      match videos.findIdx? (fun v => decide (v = video)) with
      | none =>
        some (revts ++ [Event.panicked "Video was found but its index wasn't. This should never happen."], fs)
      | some video_index =>
        let og_video_state := videos.getD video_index default
        let videos1 :=
          match update_video.new_name with
          | some name => videos.set video_index { videos.getD video_index default with name := name }
          | none => videos
        let success :=
          [Event.writeFile (videos_path home), Event.outMsg "Video updated successfully."] ++
            (if update_video.new_name.isSome then
              [Event.outMsg ("Name changed from " ++ og_video_state.name ++ " to " ++
                (videos1.getD video_index default).name)]
             else [])
        match update_video.new_views with
        | some views =>
          let c := utilities.confirm inputs
            ("Are you sure you want to set the views of " ++
              (videos1.getD video_index default).name ++ " to " ++ toString views ++ "?")
            none (some "Video update aborted.") (some true)
          match c.2 with
          | none => none
          | some false => some (revts ++ c.1, fs)
          | some true => some (revts ++ c.1 ++ success, some videos1)
        | none => some (revts ++ success, some videos1)

/-- Rust `fn handle_delete_video`: reject an empty query before touching the
file, load, resolve, re-locate by identity, run `utilities::confirm` with the
record's debug rendering (affirmative default, cancel message on decline),
and only on an affirmative answer remove the record and persist. -/
def handle_delete_video (home : String) (fs : Option (List Video))
    (video_query : VideoQuery) (inputs : List String) :
    Option (List Event × Option (List Video)) :=
  if video_query.id = none ∧ video_query.name = none then
    some ([Event.errMsg "No query given. Please provide an ID or name"], fs)
  else
    let videos := fs.getD []
    let revts := read_events (videos_path home) fs
    match find_video videos video_query with
    | .error .NoVideoFound =>
      some (revts ++ [Event.errMsg "Delete failed. No video found from given query."], fs)
    | .error (.MultipleVideosFound counts) =>
      some (revts ++ multiple_videos_events "Delete" video_query.id.isSome
        video_query.name.isSome counts, fs)
    | .ok video =>
      match videos.findIdx? (fun v => decide (v = video)) with
      | none =>
        some (revts ++ [Event.panicked "Video was found but its index wasn't. This should never happen."], fs)
      | some video_index =>
        let c := utilities.confirm inputs "Are you sure you want to delete this video?"
          (some (video_debug video)) (some "Video deletion cancelled.") (some true)
        match c.2 with
        | none => none
        | some false => some (revts ++ c.1, fs)
        | some true =>
          some (revts ++ c.1 ++
            [Event.writeFile (videos_path home), Event.outMsg "Video deleted successfully."],
            some (videos.eraseIdx video_index))

/-- Rust `fn handle_list_videos`: load first, print everything in `--all`
mode, otherwise reject an empty query, otherwise print every match of
`find_videos`. -/
def handle_list_videos (home : String) (fs : Option (List Video))
    (show_video : ListVideo) : List Event × Option (List Video) :=
  let videos := fs.getD []
  let revts := read_events (videos_path home) fs
  if show_video.all then
    (revts ++ videos.map (fun v => Event.outMsg (video_debug v)), fs)
  else if show_video.id = none ∧ show_video.name = none then
    (revts ++ [Event.errMsg "No query given. Please provide an ID or name"], fs)
  else
    let video_query : VideoQuery := ⟨show_video.id, show_video.name⟩
    match find_videos videos video_query with
    | .error .NoVideoFound => (revts ++ [Event.errMsg "No video found from given query."], fs)
    | .error (.MultipleVideosFound _) =>
      (revts ++ [Event.panicked "called `Result::unwrap()` on an `Err` value"], fs)
    | .ok found_videos =>
      (revts ++ found_videos.map (fun v => Event.outMsg (video_debug v)), fs)

end video_subcommands

namespace view_subcommands

/-- Rust `struct AddViews` (`number_to_add` defaults to 1 in the CLI shell). -/
structure AddViews where
  name : Option String
  id : Option Nat
  number_to_add : Nat

/-- The collection file used by the view handlers: `Path::new("videos.bc")`,
relative to the working directory — unlike the video handlers, which use the
home-directory path. -/
def videos_path : String := "videos.bc"

/-- Rust `fn handle_add_views`: load the working-directory video file FIRST,
then reject an empty query, then resolve, re-locate by identity, report
success, add the views (u32 wrap-around arithmetic) and persist. -/
def handle_add_views (fs : Option (List video_subcommands.Video))
    (add_views : AddViews) : List Event × Option (List video_subcommands.Video) :=
  let videos := fs.getD []
  let revts := read_events videos_path fs
  if add_views.name = none ∧ add_views.id = none then
    (revts ++ [Event.errMsg "You must specify either a name or an ID"], fs)
  else
    let video_query : video_subcommands.VideoQuery := ⟨add_views.id, add_views.name⟩
    match video_subcommands.find_video videos video_query with
    | .error .NoVideoFound =>
      (revts ++ [Event.errMsg "Update failed. No video found from given query."], fs)
    | .error (.MultipleVideosFound counts) =>
      (revts ++ video_subcommands.multiple_videos_events "Update" add_views.id.isSome
        add_views.name.isSome counts, fs)
    | .ok video =>
      match videos.findIdx? (fun v => decide (v = video)) with
      | none =>
        (revts ++ [Event.panicked "Video was found but its index wasn't. This should never happen."], fs)
      | some video_index =>
        let current_views := (videos.getD video_index default).views
        let videos1 := videos.set video_index
          { videos.getD video_index default with
              views := (current_views + add_views.number_to_add) % 2 ^ 32 }
        (revts ++ [Event.outMsg ("Successfully added " ++ toString add_views.number_to_add ++
          " views to " ++ video.name), Event.writeFile videos_path], some videos1)

/-- Rust `fn handle_show_views`: load the working-directory video file FIRST,
then reject an empty query, then resolve and print the view count. -/
def handle_show_views (fs : Option (List video_subcommands.Video))
    (video_query : video_subcommands.VideoQuery) :
    List Event × Option (List video_subcommands.Video) :=
  let videos := fs.getD []
  let revts := read_events videos_path fs
  if video_query.name = none ∧ video_query.id = none then
    (revts ++ [Event.errMsg "You must specify either a name or an ID"], fs)
  else
    match video_subcommands.find_video videos video_query with
    | .error .NoVideoFound =>
      (revts ++ [Event.errMsg "No video found with the specified name or ID"], fs)
    | .error (.MultipleVideosFound counts) =>
      (revts ++ Event.errMsg "Multiple videos found with the specified name or ID" ::
        ((if video_query.id.isSome then
            [Event.errMsg ("ID matches: " ++ toString counts.id)] else []) ++
         (if video_query.name.isSome then
            [Event.errMsg ("Name matches: " ++ toString counts.name)] else [])), fs)
    | .ok video =>
      (revts ++ [Event.outMsg (video.name ++ " has " ++ toString video.views ++ " views")], fs)

end view_subcommands

namespace store

open user_subcommands

/-- Little-endian bytes of a `u32` (bincode's fixed-width integer layout). -/
def u32_le (n : Nat) : List Nat :=
  [n % 256, n / 2 ^ 8 % 256, n / 2 ^ 16 % 256, n / 2 ^ 24 % 256]

/-- Little-endian bytes of a `u64` (bincode's length prefix layout). -/
def u64_le (n : Nat) : List Nat :=
  [n % 256, n / 2 ^ 8 % 256, n / 2 ^ 16 % 256, n / 2 ^ 24 % 256,
   n / 2 ^ 32 % 256, n / 2 ^ 40 % 256, n / 2 ^ 48 % 256, n / 2 ^ 56 % 256]

/-- Byte content of a string (code points; equal to the UTF-8 bytes for the
ASCII data these collections hold). -/
def str_bytes (s : String) : List Nat :=
  s.data.map Char.toNat

/-- Bincode layout of a Rust `String`: `u64` length prefix plus the bytes. -/
def encode_string (s : String) : List Nat :=
  u64_le (str_bytes s).length ++ str_bytes s

/-- Bincode layout of one `User` record. -/
def encode_user (u : User) : List Nat :=
  u32_le u.id ++ encode_string u.name ++ encode_string u.email

/-- Bincode layout of a `Vec<User>`: `u64` length prefix plus the
concatenated records — what `bincode::serialize_into(file, &users)` writes. -/
def encode_users (l : List User) : List Nat :=
  u64_le l.length ++ (l.map encode_user).flatten

/-- The sequence of on-disk states a save passes through, translated from the
save code in every handler: before (`old`), after `File::create(path)`
truncates the file in place (empty), and after `bincode::serialize_into`
finishes writing the new serialization. -/
def save_file_states (old : Option (List Nat)) (new : List User) :
    List (Option (List Nat)) :=
  [old, some [], some (encode_users new)]

end store

namespace user_subcommands

theorem find_user_scan_found (query : UserQuery) (users : List User) :
    (find_user_scan query users).found = users.filter (any_hit query) := by
  induction users with
  | nil => rfl
  | cons u rest ih =>
    by_cases h1 : id_hit query u
    · simp [find_user_scan, List.filter_cons, any_hit, h1, ih]
    · by_cases h2 : name_hit query u
      · simp [find_user_scan, List.filter_cons, any_hit, h1, h2, ih]
      · by_cases h3 : email_hit query u
        · simp [find_user_scan, List.filter_cons, any_hit, h1, h2, h3, ih]
        · simp [find_user_scan, List.filter_cons, any_hit, h1, h2, h3, ih]

theorem find_user_scan_id_matches (query : UserQuery) (users : List User) :
    (find_user_scan query users).id_matches = users.countP (fun u => id_hit query u) := by
  induction users with
  | nil => rfl
  | cons u rest ih =>
    by_cases h1 : id_hit query u
    · simp [find_user_scan, List.countP_cons, h1, ih]
    · by_cases h2 : name_hit query u
      · simp [find_user_scan, List.countP_cons, h1, h2, ih]
      · by_cases h3 : email_hit query u
        · simp [find_user_scan, List.countP_cons, h1, h2, h3, ih]
        · simp [find_user_scan, List.countP_cons, h1, h2, h3, ih]

theorem find_user_scan_name_matches (query : UserQuery) (users : List User) :
    (find_user_scan query users).name_matches =
      users.countP (fun u => !id_hit query u && name_hit query u) := by
  induction users with
  | nil => rfl
  | cons u rest ih =>
    by_cases h1 : id_hit query u
    · simp [find_user_scan, List.countP_cons, h1, ih]
    · by_cases h2 : name_hit query u
      · simp [find_user_scan, List.countP_cons, h1, h2, ih]
      · by_cases h3 : email_hit query u
        · simp [find_user_scan, List.countP_cons, h1, h2, h3, ih]
        · simp [find_user_scan, List.countP_cons, h1, h2, h3, ih]

theorem find_user_scan_email_matches (query : UserQuery) (users : List User) :
    (find_user_scan query users).email_matches =
      users.countP (fun u => !id_hit query u && !name_hit query u && email_hit query u) := by
  induction users with
  | nil => rfl
  | cons u rest ih =>
    by_cases h1 : id_hit query u
    · simp [find_user_scan, List.countP_cons, h1, ih]
    · by_cases h2 : name_hit query u
      · simp [find_user_scan, List.countP_cons, h1, h2, ih]
      · by_cases h3 : email_hit query u
        · simp [find_user_scan, List.countP_cons, h1, h2, h3, ih]
        · simp [find_user_scan, List.countP_cons, h1, h2, h3, ih]

theorem find_user_scan_total (query : UserQuery) (users : List User) :
    (find_user_scan query users).id_matches + (find_user_scan query users).name_matches +
      (find_user_scan query users).email_matches = (find_user_scan query users).found.length := by
  induction users with
  | nil => rfl
  | cons u rest ih =>
    by_cases h1 : id_hit query u
    · simp only [find_user_scan, h1, if_true, List.length_cons]
      omega
    · by_cases h2 : name_hit query u
      · simp only [find_user_scan, h1, h2, if_false, if_true, Bool.false_eq_true, List.length_cons]
        omega
      · by_cases h3 : email_hit query u
        · simp only [find_user_scan, h1, h2, h3, if_false, if_true, Bool.false_eq_true,
            List.length_cons]
          omega
        · simp only [find_user_scan, h1, h2, h3, if_false, Bool.false_eq_true]
          omega

theorem find_user_eq_none_iff (users : List User) (query : UserQuery) :
    find_user users query = .error .NoUserFound ↔ users.filter (any_hit query) = [] := by
  simp only [find_user, find_user_scan_found]
  rcases hl : users.filter (any_hit query) with _ | ⟨x, _ | ⟨y, rest⟩⟩ <;> simp

theorem find_user_eq_ok_iff (users : List User) (query : UserQuery) (u : User) :
    find_user users query = .ok u ↔ users.filter (any_hit query) = [u] := by
  simp only [find_user, find_user_scan_found]
  rcases hl : users.filter (any_hit query) with _ | ⟨x, _ | ⟨y, rest⟩⟩ <;>
    simp [List.headD, eq_comm]

theorem find_user_multiple_iff (users : List User) (query : UserQuery) :
    (∃ counts, find_user users query = .error (.MultipleUsersFound counts)) ↔
      1 < (users.filter (any_hit query)).length := by
  simp only [find_user, find_user_scan_found]
  rcases hl : users.filter (any_hit query) with _ | ⟨x, _ | ⟨y, rest⟩⟩ <;> simp

end user_subcommands

namespace video_subcommands

theorem find_video_scan_found (query : VideoQuery) (videos : List Video) :
    (find_video_scan query videos).found = videos.filter (any_hit query) := by
  induction videos with
  | nil => rfl
  | cons v rest ih =>
    by_cases h1 : id_hit query v
    · simp [find_video_scan, List.filter_cons, any_hit, h1, ih]
    · by_cases h2 : name_hit query v
      · simp [find_video_scan, List.filter_cons, any_hit, h1, h2, ih]
      · simp [find_video_scan, List.filter_cons, any_hit, h1, h2, ih]

theorem find_video_scan_id_matches (query : VideoQuery) (videos : List Video) :
    (find_video_scan query videos).id_matches = videos.countP (fun v => id_hit query v) := by
  induction videos with
  | nil => rfl
  | cons v rest ih =>
    by_cases h1 : id_hit query v
    · simp [find_video_scan, List.countP_cons, h1, ih]
    · by_cases h2 : name_hit query v
      · simp [find_video_scan, List.countP_cons, h1, h2, ih]
      · simp [find_video_scan, List.countP_cons, h1, h2, ih]

theorem find_video_scan_name_matches (query : VideoQuery) (videos : List Video) :
    (find_video_scan query videos).name_matches =
      videos.countP (fun v => !id_hit query v && name_hit query v) := by
  induction videos with
  | nil => rfl
  | cons v rest ih =>
    by_cases h1 : id_hit query v
    · simp [find_video_scan, List.countP_cons, h1, ih]
    · by_cases h2 : name_hit query v
      · simp [find_video_scan, List.countP_cons, h1, h2, ih]
      · simp [find_video_scan, List.countP_cons, h1, h2, ih]

theorem find_video_scan_total (query : VideoQuery) (videos : List Video) :
    (find_video_scan query videos).id_matches + (find_video_scan query videos).name_matches =
      (find_video_scan query videos).found.length := by
  induction videos with
  | nil => rfl
  | cons v rest ih =>
    by_cases h1 : id_hit query v
    · simp only [find_video_scan, h1, if_true, List.length_cons]
      omega
    · by_cases h2 : name_hit query v
      · simp only [find_video_scan, h1, h2, if_false, if_true, Bool.false_eq_true,
          List.length_cons]
        omega
      · simp only [find_video_scan, h1, h2, if_false, Bool.false_eq_true]
        omega

theorem find_video_eq_none_iff (videos : List Video) (query : VideoQuery) :
    find_video videos query = .error .NoVideoFound ↔ videos.filter (any_hit query) = [] := by
  simp only [find_video, find_video_scan_found]
  rcases hl : videos.filter (any_hit query) with _ | ⟨x, _ | ⟨y, rest⟩⟩ <;> simp

theorem find_video_eq_ok_iff (videos : List Video) (query : VideoQuery) (v : Video) :
    find_video videos query = .ok v ↔ videos.filter (any_hit query) = [v] := by
  simp only [find_video, find_video_scan_found]
  rcases hl : videos.filter (any_hit query) with _ | ⟨x, _ | ⟨y, rest⟩⟩ <;>
    simp [List.headD, eq_comm]

theorem find_video_multiple_iff (videos : List Video) (query : VideoQuery) :
    (∃ counts, find_video videos query = .error (.MultipleVideosFound counts)) ↔
      1 < (videos.filter (any_hit query)).length := by
  simp only [find_video, find_video_scan_found]
  rcases hl : videos.filter (any_hit query) with _ | ⟨x, _ | ⟨y, rest⟩⟩ <;> simp

end video_subcommands

theorem findIdx_decide_isSome_of_mem {α : Type} [DecidableEq α] {a : α} :
    ∀ {l : List α}, a ∈ l → (l.findIdx? (fun x => decide (x = a))).isSome := by
  intro l h
  induction l with
  | nil => simp at h
  | cons x xs ih =>
    rw [List.findIdx?_cons]
    by_cases hx : x = a
    · simp [hx]
    · rcases List.mem_cons.mp h with h' | h'
      · exact absurd h'.symm hx
      · simp only [hx, decide_eq_true_eq, if_false, List.findIdx?_succ]
        simpa using ih h'

theorem user_subcommands.find_user_ok_mem {users : List user_subcommands.User}
    {query : user_subcommands.UserQuery} {u : user_subcommands.User}
    (h : user_subcommands.find_user users query = .ok u) : u ∈ users := by
  have hf := (user_subcommands.find_user_eq_ok_iff users query u).mp h
  have : u ∈ users.filter (user_subcommands.any_hit query) := by
    rw [hf]; exact List.mem_singleton_self u
  exact List.mem_of_mem_filter this

theorem video_subcommands.find_video_ok_mem {videos : List video_subcommands.Video}
    {query : video_subcommands.VideoQuery} {v : video_subcommands.Video}
    (h : video_subcommands.find_video videos query = .ok v) : v ∈ videos := by
  have hf := (video_subcommands.find_video_eq_ok_iff videos query v).mp h
  have : v ∈ videos.filter (video_subcommands.any_hit query) := by
    rw [hf]; exact List.mem_singleton_self v
  exact List.mem_of_mem_filter this

theorem user_subcommands.find_user_no_query (users : List user_subcommands.User)
    {query : user_subcommands.UserQuery} (hid : query.id = none)
    (hname : query.name = none) (hemail : query.email = none) :
    user_subcommands.find_user users query = .error .NoUserFound := by
  rw [user_subcommands.find_user_eq_none_iff]
  rw [List.filter_eq_nil_iff]
  intro u _
  simp [user_subcommands.any_hit, user_subcommands.id_hit, user_subcommands.name_hit,
    user_subcommands.email_hit, hid, hname, hemail]

theorem video_subcommands.find_video_no_query (videos : List video_subcommands.Video)
    {query : video_subcommands.VideoQuery} (hid : query.id = none)
    (hname : query.name = none) :
    video_subcommands.find_video videos query = .error .NoVideoFound := by
  rw [video_subcommands.find_video_eq_none_iff]
  rw [List.filter_eq_nil_iff]
  intro v _
  simp [video_subcommands.any_hit, video_subcommands.id_hit, video_subcommands.name_hit,
    hid, hname]

theorem read_events_no_write {α : Type} (path : String) (fs : Option α) (p : String) :
    Event.writeFile p ∉ read_events path fs := by
  cases fs <;> simp [read_events]

theorem read_events_no_panic {α : Type} (path : String) (fs : Option α) (m : String) :
    Event.panicked m ∉ read_events path fs := by
  cases fs <;> simp [read_events]

theorem user_subcommands.delete_prompt_loop_no_write (inputs : List String) (p : String) :
    Event.writeFile p ∉ (user_subcommands.delete_prompt_loop inputs).1 := by
  induction inputs with
  | nil => simp [user_subcommands.delete_prompt_loop]
  | cons s rest ih =>
    simp only [user_subcommands.delete_prompt_loop]
    split_ifs <;> simp_all

theorem user_subcommands.delete_prompt_loop_no_panic (inputs : List String) (m : String) :
    Event.panicked m ∉ (user_subcommands.delete_prompt_loop inputs).1 := by
  induction inputs with
  | nil => simp [user_subcommands.delete_prompt_loop]
  | cons s rest ih =>
    simp only [user_subcommands.delete_prompt_loop]
    split_ifs <;> simp_all

theorem user_subcommands.delete_prompt_loop_cancel_msg (inputs : List String)
    (h : (user_subcommands.delete_prompt_loop inputs).2 = some .cancel) :
    Event.outMsg "User deletion cancelled." ∈ (user_subcommands.delete_prompt_loop inputs).1 := by
  induction inputs with
  | nil => simp [user_subcommands.delete_prompt_loop] at h
  | cons s rest ih =>
    simp only [user_subcommands.delete_prompt_loop] at h ⊢
    split_ifs at h ⊢ <;> simp_all

theorem utilities.confirm_loop_no_write (inputs : List String) (cm : Option String)
    (dflt : Option Bool) (p : String) :
    Event.writeFile p ∉ (utilities.confirm_loop inputs cm dflt).1 := by
  induction inputs with
  | nil => simp [utilities.confirm_loop]
  | cons s rest ih =>
    simp only [utilities.confirm_loop]
    split_ifs <;> rcases dflt with _ | b <;> try cases b
    all_goals cases cm <;> simp_all

theorem utilities.confirm_loop_no_panic (inputs : List String) (cm : Option String)
    (dflt : Option Bool) (m : String) :
    Event.panicked m ∉ (utilities.confirm_loop inputs cm dflt).1 := by
  induction inputs with
  | nil => simp [utilities.confirm_loop]
  | cons s rest ih =>
    simp only [utilities.confirm_loop]
    split_ifs <;> rcases dflt with _ | b <;> try cases b
    all_goals cases cm <;> simp_all

theorem utilities.confirm_loop_false_cancel_msg (inputs : List String) (m : String)
    (dflt : Option Bool)
    (h : (utilities.confirm_loop inputs (some m) dflt).2 = some false) :
    Event.outMsg m ∈ (utilities.confirm_loop inputs (some m) dflt).1 := by
  induction inputs with
  | nil => simp [utilities.confirm_loop] at h
  | cons s rest ih =>
    simp only [utilities.confirm_loop] at h ⊢
    split_ifs at h ⊢ <;> rcases dflt with _ | b <;> try cases b
    all_goals simp_all

theorem utilities.confirm_fst (inputs : List String) (prompt : String)
    (post_prompt : Option String) (cm : Option String) (dflt : Option Bool) :
    (utilities.confirm inputs prompt post_prompt cm dflt).1 =
      Event.outMsg (prompt ++ " [" ++ (if dflt = some true then "Y" else "y") ++ "]es/[" ++
          (if dflt = some false then "N" else "n") ++ "]o") ::
        ((match post_prompt with
          | some p => [Event.outMsg p]
          | none => []) ++ (utilities.confirm_loop inputs cm dflt).1) := rfl

theorem utilities.confirm_snd (inputs : List String) (prompt : String)
    (post_prompt : Option String) (cm : Option String) (dflt : Option Bool) :
    (utilities.confirm inputs prompt post_prompt cm dflt).2 =
      (utilities.confirm_loop inputs cm dflt).2 := rfl

theorem utilities.confirm_no_write (inputs : List String) (prompt : String)
    (post_prompt : Option String) (cm : Option String) (dflt : Option Bool) (p : String) :
    Event.writeFile p ∉ (utilities.confirm inputs prompt post_prompt cm dflt).1 := by
  rw [utilities.confirm_fst]
  intro hmem
  rcases List.mem_cons.mp hmem with h | h
  · simp at h
  · rcases List.mem_append.mp h with h' | h'
    · cases post_prompt <;> simp_all
    · exact utilities.confirm_loop_no_write inputs cm dflt p h'

theorem utilities.confirm_no_panic (inputs : List String) (prompt : String)
    (post_prompt : Option String) (cm : Option String) (dflt : Option Bool) (m : String) :
    Event.panicked m ∉ (utilities.confirm inputs prompt post_prompt cm dflt).1 := by
  rw [utilities.confirm_fst]
  intro hmem
  rcases List.mem_cons.mp hmem with h | h
  · simp at h
  · rcases List.mem_append.mp h with h' | h'
    · cases post_prompt <;> simp_all
    · exact utilities.confirm_loop_no_panic inputs cm dflt m h'

theorem utilities.confirm_false_cancel_msg (inputs : List String) (prompt : String)
    (post_prompt : Option String) (m : String) (dflt : Option Bool)
    (h : (utilities.confirm inputs prompt post_prompt (some m) dflt).2 = some false) :
    Event.outMsg m ∈ (utilities.confirm inputs prompt post_prompt (some m) dflt).1 := by
  rw [utilities.confirm_snd] at h
  rw [utilities.confirm_fst]
  exact List.mem_cons_of_mem _
    (List.mem_append_right _ (utilities.confirm_loop_false_cancel_msg inputs m dflt h))

/-- C1: for every collection and every query with at least one predicate
present, the single-target matcher (`find_user` / `find_video`) returns the
ambiguous error if and only if more than one record matches the query, a
unique record if and only if exactly one matches (and then it returns exactly
that record), and the not-found error if and only if no record matches. -/
theorem c1_single_target_matcher_classification :
    (∀ (users : List user_subcommands.User) (query : user_subcommands.UserQuery),
      query.id.isSome ∨ query.name.isSome ∨ query.email.isSome →
      (user_subcommands.find_user users query = .error .NoUserFound ↔
        (users.filter (user_subcommands.any_hit query)).length = 0) ∧
      ((∃ u, user_subcommands.find_user users query = .ok u) ↔
        (users.filter (user_subcommands.any_hit query)).length = 1) ∧
      (∀ u, user_subcommands.find_user users query = .ok u →
        users.filter (user_subcommands.any_hit query) = [u]) ∧
      ((∃ counts, user_subcommands.find_user users query =
          .error (.MultipleUsersFound counts)) ↔
        1 < (users.filter (user_subcommands.any_hit query)).length)) ∧
    (∀ (videos : List video_subcommands.Video) (query : video_subcommands.VideoQuery),
      query.id.isSome ∨ query.name.isSome →
      (video_subcommands.find_video videos query = .error .NoVideoFound ↔
        (videos.filter (video_subcommands.any_hit query)).length = 0) ∧
      ((∃ v, video_subcommands.find_video videos query = .ok v) ↔
        (videos.filter (video_subcommands.any_hit query)).length = 1) ∧
      (∀ v, video_subcommands.find_video videos query = .ok v →
        videos.filter (video_subcommands.any_hit query) = [v]) ∧
      ((∃ counts, video_subcommands.find_video videos query =
          .error (.MultipleVideosFound counts)) ↔
        1 < (videos.filter (video_subcommands.any_hit query)).length)) := by
  constructor
  · intro users query _
    refine ⟨?_, ?_, ?_, ?_⟩
    · rw [user_subcommands.find_user_eq_none_iff, List.length_eq_zero]
    · constructor
      · rintro ⟨u, hu⟩
        rw [(user_subcommands.find_user_eq_ok_iff users query u).mp hu]
        rfl
      · intro hlen
        rcases List.length_eq_one.mp hlen with ⟨u, hu⟩
        exact ⟨u, (user_subcommands.find_user_eq_ok_iff users query u).mpr hu⟩
    · intro u hu
      exact (user_subcommands.find_user_eq_ok_iff users query u).mp hu
    · exact user_subcommands.find_user_multiple_iff users query
  · intro videos query _
    refine ⟨?_, ?_, ?_, ?_⟩
    · rw [video_subcommands.find_video_eq_none_iff, List.length_eq_zero]
    · constructor
      · rintro ⟨v, hv⟩
        rw [(video_subcommands.find_video_eq_ok_iff videos query v).mp hv]
        rfl
      · intro hlen
        rcases List.length_eq_one.mp hlen with ⟨v, hv⟩
        exact ⟨v, (video_subcommands.find_video_eq_ok_iff videos query v).mpr hv⟩
    · intro v hv
      exact (video_subcommands.find_video_eq_ok_iff videos query v).mp hv
    · exact video_subcommands.find_video_multiple_iff videos query

/-- Witness for C1 at a concrete input: one user, queried by its id. -/
theorem c1_witness :
    ((some 1 : Option Nat).isSome ∨ (none : Option String).isSome ∨
      (none : Option String).isSome) ∧
    (∀ u, user_subcommands.find_user [⟨1, "a", "x"⟩] ⟨some 1, none, none⟩ = .ok u →
      ([⟨1, "a", "x"⟩] : List user_subcommands.User).filter
        (user_subcommands.any_hit ⟨some 1, none, none⟩) = [u]) :=
  ⟨Or.inl (by decide),
    (c1_single_target_matcher_classification.1 [⟨1, "a", "x"⟩] ⟨some 1, none, none⟩
      (Or.inl (by decide))).2.2.1⟩

/-- C2: during one scan of the single-target matcher each record is counted
at most once, under the first present predicate it satisfies in the order id,
name, email (users) or id, name (videos): the id counter counts exactly the
records whose id predicate fires, the name counter counts exactly the records
whose id predicate does not fire but whose name predicate does, and so on,
and the counters sum to the number of matched records.  In particular a
record matching both the id and the name predicate bumps only the id
counter. -/
theorem c2_scan_counts_each_record_once :
    (∀ (users : List user_subcommands.User) (query : user_subcommands.UserQuery),
      (user_subcommands.find_user_scan query users).id_matches =
        users.countP (fun u => user_subcommands.id_hit query u) ∧
      (user_subcommands.find_user_scan query users).name_matches =
        users.countP (fun u =>
          !user_subcommands.id_hit query u && user_subcommands.name_hit query u) ∧
      (user_subcommands.find_user_scan query users).email_matches =
        users.countP (fun u => !user_subcommands.id_hit query u &&
          !user_subcommands.name_hit query u && user_subcommands.email_hit query u) ∧
      (user_subcommands.find_user_scan query users).id_matches +
        (user_subcommands.find_user_scan query users).name_matches +
        (user_subcommands.find_user_scan query users).email_matches =
        (user_subcommands.find_user_scan query users).found.length) ∧
    (∀ (videos : List video_subcommands.Video) (query : video_subcommands.VideoQuery),
      (video_subcommands.find_video_scan query videos).id_matches =
        videos.countP (fun v => video_subcommands.id_hit query v) ∧
      (video_subcommands.find_video_scan query videos).name_matches =
        videos.countP (fun v =>
          !video_subcommands.id_hit query v && video_subcommands.name_hit query v) ∧
      (video_subcommands.find_video_scan query videos).id_matches +
        (video_subcommands.find_video_scan query videos).name_matches =
        (video_subcommands.find_video_scan query videos).found.length) ∧
    (∀ (query : user_subcommands.UserQuery) (u : user_subcommands.User),
      user_subcommands.id_hit query u = true → user_subcommands.name_hit query u = true →
      (user_subcommands.find_user_scan query [u]).id_matches = 1 ∧
      (user_subcommands.find_user_scan query [u]).name_matches = 0 ∧
      (user_subcommands.find_user_scan query [u]).found.length = 1) := by
  refine ⟨?_, ?_, ?_⟩
  · intro users query
    exact ⟨user_subcommands.find_user_scan_id_matches query users,
      user_subcommands.find_user_scan_name_matches query users,
      user_subcommands.find_user_scan_email_matches query users,
      user_subcommands.find_user_scan_total query users⟩
  · intro videos query
    exact ⟨video_subcommands.find_video_scan_id_matches query videos,
      video_subcommands.find_video_scan_name_matches query videos,
      video_subcommands.find_video_scan_total query videos⟩
  · intro query u h1 h2
    simp [user_subcommands.find_user_scan, h1]

/-- Witness for C2 at a concrete input: a record matching both the id and the
name predicate is counted only under id. -/
theorem c2_witness :
    user_subcommands.id_hit ⟨some 1, some "a", none⟩ ⟨1, "a", "x"⟩ = true ∧
    user_subcommands.name_hit ⟨some 1, some "a", none⟩ ⟨1, "a", "x"⟩ = true ∧
    (user_subcommands.find_user_scan ⟨some 1, some "a", none⟩ [⟨1, "a", "x"⟩]).id_matches = 1 ∧
    (user_subcommands.find_user_scan ⟨some 1, some "a", none⟩ [⟨1, "a", "x"⟩]).name_matches = 0 ∧
    (user_subcommands.find_user_scan ⟨some 1, some "a", none⟩ [⟨1, "a", "x"⟩]).found.length = 1 := by
  refine ⟨by decide, by decide, ?_⟩
  have h := c2_scan_counts_each_record_once.2.2 ⟨some 1, some "a", none⟩ ⟨1, "a", "x"⟩
    (by decide) (by decide)
  exact ⟨h.1, h.2.1, h.2.2⟩

/-- C3: whenever the identifier generator returns — i.e. for every finite
prefix of rng draws on which its retry loop terminates — the returned id is
not the id of any record already in the collection. -/
theorem c3_generate_valid_id_fresh :
    (∀ (draws : List Nat) (users : List user_subcommands.User) (i : Nat),
      user_subcommands.generate_valid_id draws users = some i →
      user_subcommands.has_id users i = false) ∧
    (∀ (draws : List Nat) (videos : List video_subcommands.Video) (i : Nat),
      video_subcommands.generate_valid_id draws videos = some i →
      video_subcommands.has_id videos i = false) := by
  constructor
  · intro draws users i h
    induction draws with
    | nil => simp [user_subcommands.generate_valid_id] at h
    | cons d rest ih =>
      rw [user_subcommands.generate_valid_id] at h
      by_cases hd : user_subcommands.has_id users d
      · rw [if_pos hd] at h
        exact ih h
      · rw [if_neg hd] at h
        injection h with h'
        subst h'
        simpa using hd
  · intro draws videos i h
    induction draws with
    | nil => simp [video_subcommands.generate_valid_id] at h
    | cons d rest ih =>
      rw [video_subcommands.generate_valid_id] at h
      by_cases hd : video_subcommands.has_id videos d
      · rw [if_pos hd] at h
        exact ih h
      · rw [if_neg hd] at h
        injection h with h'
        subst h'
        simpa using hd

/-- Witness for C3 at a concrete input: the first draw collides, the second
is returned and is indeed unused. -/
theorem c3_witness :
    user_subcommands.generate_valid_id [5, 7] [⟨5, "a", "x"⟩] = some 7 ∧
    user_subcommands.has_id [⟨5, "a", "x"⟩] 7 = false :=
  ⟨by decide, c3_generate_valid_id_fresh.1 [5, 7] [⟨5, "a", "x"⟩] 7 (by decide)⟩

/-- C4 counterexample: `handle_add_views` invoked with zero query predicates
against an existing collection file reads that file (the load happens before
the query check), so the operation does not abort "having performed no I/O"
as claimed. -/
theorem c4_counterexample_add_views_reads_file :
    Event.readFile view_subcommands.videos_path ∈
      (view_subcommands.handle_add_views (some [⟨1, "a", 0⟩]) ⟨none, none, 1⟩).1 := by
  decide

/-- C4 (amended): every update, delete, or single-query list/show operation
invoked with zero predicates reports the usage error and aborts with the
collection unchanged and never written; update and delete additionally
perform no read, while view add/show and single-query list load the
collection file (when it exists) before the query check, so those may read
it. -/
theorem c4_no_query_aborts_without_write :
    (∀ (fs : Option (List user_subcommands.User)) (args : user_subcommands.UpdateUser),
      args.query_id = none → args.query_name = none → args.query_email = none →
      user_subcommands.handle_update_user fs args =
        ([Event.errMsg "No query given. Please provide an ID, name, or email"], fs)) ∧
    (∀ (fs : Option (List user_subcommands.User)) (q : user_subcommands.UserQuery)
        (inputs : List String), q.id = none → q.name = none → q.email = none →
      user_subcommands.handle_delete_user fs q inputs =
        some ([Event.errMsg "No query given. Please provide an ID, name, or email"], fs)) ∧
    (∀ (home : String) (fs : Option (List video_subcommands.Video))
        (args : video_subcommands.UpdateVideo) (inputs : List String),
      args.query_id = none → args.query_name = none →
      video_subcommands.handle_update_video home fs args inputs =
        some ([Event.errMsg "No query given. Please provide an ID or name"], fs)) ∧
    (∀ (home : String) (fs : Option (List video_subcommands.Video))
        (q : video_subcommands.VideoQuery) (inputs : List String),
      q.id = none → q.name = none →
      video_subcommands.handle_delete_video home fs q inputs =
        some ([Event.errMsg "No query given. Please provide an ID or name"], fs)) ∧
    (∀ (fs : Option (List video_subcommands.Video)) (args : view_subcommands.AddViews),
      args.name = none → args.id = none →
      view_subcommands.handle_add_views fs args =
        (read_events view_subcommands.videos_path fs ++
          [Event.errMsg "You must specify either a name or an ID"], fs)) ∧
    (∀ (fs : Option (List video_subcommands.Video)) (q : video_subcommands.VideoQuery),
      q.name = none → q.id = none →
      view_subcommands.handle_show_views fs q =
        (read_events view_subcommands.videos_path fs ++
          [Event.errMsg "You must specify either a name or an ID"], fs)) ∧
    (∀ (fs : Option (List user_subcommands.User)) (args : user_subcommands.ShowUser),
      args.all = false → args.id = none → args.name = none → args.email = none →
      user_subcommands.handle_list_users fs args =
        (read_events user_subcommands.users_path fs ++
          [Event.errMsg "No query given. Please provide an ID, name, or email"], fs)) ∧
    (∀ (home : String) (fs : Option (List video_subcommands.Video))
        (args : video_subcommands.ListVideo),
      args.all = false → args.id = none → args.name = none →
      video_subcommands.handle_list_videos home fs args =
        (read_events (video_subcommands.videos_path home) fs ++
          [Event.errMsg "No query given. Please provide an ID or name"], fs)) := by
  refine ⟨?_, ?_, ?_, ?_, ?_, ?_, ?_, ?_⟩
  · intro fs args h1 h2 h3
    simp [user_subcommands.handle_update_user, h1, h2, h3]
  · intro fs q inputs h1 h2 h3
    simp [user_subcommands.handle_delete_user, h1, h2, h3]
  · intro home fs args inputs h1 h2
    simp [video_subcommands.handle_update_video, h1, h2]
  · intro home fs q inputs h1 h2
    simp [video_subcommands.handle_delete_video, h1, h2]
  · intro fs args h1 h2
    simp [view_subcommands.handle_add_views, h1, h2]
  · intro fs q h1 h2
    simp [view_subcommands.handle_show_views, h1, h2]
  · intro fs args h0 h1 h2 h3
    simp [user_subcommands.handle_list_users, h0, h1, h2, h3]
  · intro home fs args h0 h1 h2
    simp [video_subcommands.handle_list_videos, h0, h1, h2]

/-- Witness for the amended C4 at concrete inputs: an empty-query update
performs no I/O at all, an empty-query add-views reads but does not write. -/
theorem c4_witness :
    user_subcommands.handle_update_user (some [⟨1, "a", "x"⟩])
        ⟨none, none, none, none, none⟩ =
      ([Event.errMsg "No query given. Please provide an ID, name, or email"],
        some [⟨1, "a", "x"⟩]) ∧
    view_subcommands.handle_add_views (some [⟨1, "a", 0⟩])
        (⟨none, none, 1⟩ : view_subcommands.AddViews) =
      (read_events view_subcommands.videos_path
          (some ([⟨1, "a", 0⟩] : List video_subcommands.Video)) ++
        [Event.errMsg "You must specify either a name or an ID"],
        some ([⟨1, "a", 0⟩] : List video_subcommands.Video)) :=
  by
  constructor
  · exact c4_no_query_aborts_without_write.1 _ _ rfl rfl rfl
  · exact c4_no_query_aborts_without_write.2.2.2.2.1 _ _ rfl rfl

theorem user_subcommands.has_email_iff (l : List user_subcommands.User) (e : String) :
    user_subcommands.has_email l e = true ↔ ∃ u ∈ l, u.email = e := by
  induction l with
  | nil => simp [user_subcommands.has_email]
  | cons u rest ih =>
    by_cases hu : u.email = e <;> simp [user_subcommands.has_email, hu, ih]

/-- C6: a create-user whose proposed email equals the email of some record in
the loaded collection fails with the duplicate-email error, leaves the
collection exactly as loaded (nothing appended), and never writes the
collection file. -/
theorem c6_create_user_duplicate_email :
    ∀ (fs : Option (List user_subcommands.User)) (args : user_subcommands.CreateUser)
      (draws : List Nat),
      (∃ u ∈ fs.getD [], u.email = args.email) →
      user_subcommands.handle_create_user fs args draws =
        some (read_events user_subcommands.users_path fs ++
          [Event.errMsg "User not generated. Given email already exists"], fs) ∧
      (∀ p, Event.writeFile p ∉
        read_events user_subcommands.users_path fs ++
          [Event.errMsg "User not generated. Given email already exists"]) := by
  intro fs args draws hdup
  have h : user_subcommands.has_email (fs.getD []) args.email = true :=
    (user_subcommands.has_email_iff _ _).mpr hdup
  constructor
  · simp [user_subcommands.handle_create_user, h]
  · intro p hmem
    rcases List.mem_append.mp hmem with h' | h'
    · exact read_events_no_write _ _ _ h'
    · simp at h'

/-- Witness for C6 at a concrete input: creating a second user with the
already-present email `"x"`. -/
theorem c6_witness :
    user_subcommands.handle_create_user (some [⟨1, "a", "x"⟩]) ⟨"b", "x"⟩ [2] =
      some (read_events user_subcommands.users_path
          (some ([⟨1, "a", "x"⟩] : List user_subcommands.User)) ++
        [Event.errMsg "User not generated. Given email already exists"],
        some ([⟨1, "a", "x"⟩] : List user_subcommands.User)) ∧
    (∀ p, Event.writeFile p ∉
      read_events user_subcommands.users_path
          (some ([⟨1, "a", "x"⟩] : List user_subcommands.User)) ++
        [Event.errMsg "User not generated. Given email already exists"]) := by
  have h := c6_create_user_duplicate_email (some [⟨1, "a", "x"⟩]) ⟨"b", "x"⟩ [2]
    ⟨⟨1, "a", "x"⟩, by decide, rfl⟩
  exact h

theorem user_subcommands.multiple_users_events_no_write (verb : String)
    (b1 b2 b3 : Bool) (counts : user_subcommands.MatchedQueries) (p : String) :
    Event.writeFile p ∉ user_subcommands.multiple_users_events verb b1 b2 b3 counts := by
  simp only [user_subcommands.multiple_users_events]
  cases b1 <;> cases b2 <;> cases b3 <;> simp

theorem user_subcommands.multiple_users_events_no_panic (verb : String)
    (b1 b2 b3 : Bool) (counts : user_subcommands.MatchedQueries) (m : String) :
    Event.panicked m ∉ user_subcommands.multiple_users_events verb b1 b2 b3 counts := by
  simp only [user_subcommands.multiple_users_events]
  cases b1 <;> cases b2 <;> cases b3 <;> simp

theorem video_subcommands.multiple_videos_events_no_write (verb : String)
    (b1 b2 : Bool) (counts : video_subcommands.MatchedQueries) (p : String) :
    Event.writeFile p ∉ video_subcommands.multiple_videos_events verb b1 b2 counts := by
  simp only [video_subcommands.multiple_videos_events]
  cases b1 <;> cases b2 <;> simp

theorem video_subcommands.multiple_videos_events_no_panic (verb : String)
    (b1 b2 : Bool) (counts : video_subcommands.MatchedQueries) (m : String) :
    Event.panicked m ∉ video_subcommands.multiple_videos_events verb b1 b2 counts := by
  simp only [video_subcommands.multiple_videos_events]
  cases b1 <;> cases b2 <;> simp

theorem user_subcommands.user_delete_declined (fs : Option (List user_subcommands.User))
    (q : user_subcommands.UserQuery) (inputs : List String) (u : user_subcommands.User)
    (hok : user_subcommands.find_user (fs.getD []) q = .ok u)
    (hcancel : (user_subcommands.delete_prompt_loop inputs).2 = some .cancel) :
    user_subcommands.handle_delete_user fs q inputs =
      some (read_events user_subcommands.users_path fs ++
        Event.outMsg ("Are you sure you want to remove this user? ([Y]es/[n]o)\n" ++
          user_subcommands.user_debug u) :: (user_subcommands.delete_prompt_loop inputs).1,
        fs) ∧
    Event.outMsg "User deletion cancelled." ∈ (user_subcommands.delete_prompt_loop inputs).1 ∧
    (∀ p, Event.writeFile p ∉
      read_events user_subcommands.users_path fs ++
        Event.outMsg ("Are you sure you want to remove this user? ([Y]es/[n]o)\n" ++
          user_subcommands.user_debug u) :: (user_subcommands.delete_prompt_loop inputs).1) := by
  have hne : ¬(q.id = none ∧ q.name = none ∧ q.email = none) := by
    rintro ⟨h1, h2, h3⟩
    rw [user_subcommands.find_user_no_query (fs.getD []) h1 h2 h3] at hok
    simp at hok
  have hmem := user_subcommands.find_user_ok_mem hok
  have hidx := findIdx_decide_isSome_of_mem hmem
  obtain ⟨idx, hidx'⟩ := Option.isSome_iff_exists.mp hidx
  obtain ⟨es, hes⟩ : ∃ es, user_subcommands.delete_prompt_loop inputs =
      (es, some user_subcommands.Answer.cancel) :=
    ⟨(user_subcommands.delete_prompt_loop inputs).1, by rw [← hcancel]⟩
  refine ⟨?_, user_subcommands.delete_prompt_loop_cancel_msg inputs hcancel, ?_⟩
  · simp only [user_subcommands.handle_delete_user, if_neg hne, hok, hidx', hes]
  · intro p hp
    rcases List.mem_append.mp hp with h' | h'
    · exact absurd h' (read_events_no_write _ _ _)
    · rcases List.mem_cons.mp h' with h'' | h''
      · simp at h''
      · exact absurd h'' (user_subcommands.delete_prompt_loop_no_write inputs p)

theorem user_subcommands.user_delete_write_implies_gate
    (fs : Option (List user_subcommands.User)) (q : user_subcommands.UserQuery)
    (inputs : List String) (tr : List Event) (fs' : Option (List user_subcommands.User))
    (p : String)
    (hres : user_subcommands.handle_delete_user fs q inputs = some (tr, fs'))
    (hw : Event.writeFile p ∈ tr) :
    ∃ u es, user_subcommands.find_user (fs.getD []) q = .ok u ∧
      user_subcommands.delete_prompt_loop inputs = (es, some .accept) ∧
      Event.outMsg ("Are you sure you want to remove this user? ([Y]es/[n]o)\n" ++
        user_subcommands.user_debug u) ∈ tr := by
  by_cases hq : q.id = none ∧ q.name = none ∧ q.email = none
  · simp only [user_subcommands.handle_delete_user, if_pos hq, Option.some.injEq,
      Prod.mk.injEq] at hres
    obtain ⟨htr, -⟩ := hres
    subst htr
    simp at hw
  · simp only [user_subcommands.handle_delete_user, if_neg hq] at hres
    cases hfind : user_subcommands.find_user (fs.getD []) q with
    | error e =>
      rw [hfind] at hres
      cases e with
      | NoUserFound =>
        simp only [Option.some.injEq, Prod.mk.injEq] at hres
        obtain ⟨htr, -⟩ := hres
        subst htr
        rcases List.mem_append.mp hw with h' | h'
        · exact absurd h' (read_events_no_write _ _ _)
        · simp at h'
      | MultipleUsersFound counts =>
        simp only [Option.some.injEq, Prod.mk.injEq] at hres
        obtain ⟨htr, -⟩ := hres
        subst htr
        rcases List.mem_append.mp hw with h' | h'
        · exact absurd h' (read_events_no_write _ _ _)
        · exact absurd h' (user_subcommands.multiple_users_events_no_write _ _ _ _ _ _)
    | ok user =>
      rw [hfind] at hres
      dsimp only at hres
      cases hidx : (fs.getD [] : List user_subcommands.User).findIdx?
          (fun x => decide (x = user)) with
      | none =>
        rw [hidx] at hres
        simp only [Option.some.injEq, Prod.mk.injEq] at hres
        obtain ⟨htr, -⟩ := hres
        subst htr
        rcases List.mem_append.mp hw with h' | h'
        · exact absurd h' (read_events_no_write _ _ _)
        · simp at h'
      | some idx =>
        rw [hidx] at hres
        rcases hloop : user_subcommands.delete_prompt_loop inputs with ⟨es, ans⟩
        rw [hloop] at hres
        cases ans with
        | none => simp at hres
        | some a =>
          cases a with
          | cancel =>
            simp only [Option.some.injEq, Prod.mk.injEq] at hres
            obtain ⟨htr, -⟩ := hres
            subst htr
            rcases List.mem_append.mp hw with h' | h'
            · exact absurd h' (read_events_no_write _ _ _)
            · rcases List.mem_cons.mp h' with h'' | h''
              · simp at h''
              · have hes : (user_subcommands.delete_prompt_loop inputs).1 = es := by
                  rw [hloop]
                rw [← hes] at h''
                exact absurd h'' (user_subcommands.delete_prompt_loop_no_write inputs p)
          | accept =>
            simp only [Option.some.injEq, Prod.mk.injEq] at hres
            obtain ⟨htr, -⟩ := hres
            subst htr
            exact ⟨user, es, rfl, rfl,
              List.mem_append_left _ (List.mem_append_right _ (List.mem_cons_self _ _))⟩

theorem video_subcommands.video_delete_declined (home : String)
    (fs : Option (List video_subcommands.Video)) (q : video_subcommands.VideoQuery)
    (inputs : List String) (v : video_subcommands.Video)
    (hok : video_subcommands.find_video (fs.getD []) q = .ok v)
    (hdecl : (utilities.confirm inputs "Are you sure you want to delete this video?"
      (some (video_subcommands.video_debug v)) (some "Video deletion cancelled.")
      (some true)).2 = some false) :
    video_subcommands.handle_delete_video home fs q inputs =
      some (read_events (video_subcommands.videos_path home) fs ++
        (utilities.confirm inputs "Are you sure you want to delete this video?"
          (some (video_subcommands.video_debug v)) (some "Video deletion cancelled.")
          (some true)).1, fs) ∧
    Event.outMsg "Video deletion cancelled." ∈
      (utilities.confirm inputs "Are you sure you want to delete this video?"
        (some (video_subcommands.video_debug v)) (some "Video deletion cancelled.")
        (some true)).1 ∧
    (∀ p, Event.writeFile p ∉
      read_events (video_subcommands.videos_path home) fs ++
        (utilities.confirm inputs "Are you sure you want to delete this video?"
          (some (video_subcommands.video_debug v)) (some "Video deletion cancelled.")
          (some true)).1) := by
  have hne : ¬(q.id = none ∧ q.name = none) := by
    rintro ⟨h1, h2⟩
    rw [video_subcommands.find_video_no_query (fs.getD []) h1 h2] at hok
    simp at hok
  have hmem := video_subcommands.find_video_ok_mem hok
  have hidx := findIdx_decide_isSome_of_mem hmem
  obtain ⟨idx, hidx'⟩ := Option.isSome_iff_exists.mp hidx
  refine ⟨?_, utilities.confirm_false_cancel_msg _ _ _ _ _ hdecl, ?_⟩
  · simp only [video_subcommands.handle_delete_video, if_neg hne, hok, hidx', hdecl]
  · intro p hp
    rcases List.mem_append.mp hp with h' | h'
    · exact absurd h' (read_events_no_write _ _ _)
    · exact absurd h' (utilities.confirm_no_write _ _ _ _ _ _)

theorem video_subcommands.video_delete_write_implies_gate (home : String)
    (fs : Option (List video_subcommands.Video)) (q : video_subcommands.VideoQuery)
    (inputs : List String) (tr : List Event) (fs' : Option (List video_subcommands.Video))
    (p : String)
    (hres : video_subcommands.handle_delete_video home fs q inputs = some (tr, fs'))
    (hw : Event.writeFile p ∈ tr) :
    ∃ v, video_subcommands.find_video (fs.getD []) q = .ok v ∧
      (utilities.confirm inputs "Are you sure you want to delete this video?"
        (some (video_subcommands.video_debug v)) (some "Video deletion cancelled.")
        (some true)).2 = some true := by
  by_cases hq : q.id = none ∧ q.name = none
  · simp only [video_subcommands.handle_delete_video, if_pos hq, Option.some.injEq,
      Prod.mk.injEq] at hres
    obtain ⟨htr, -⟩ := hres
    subst htr
    simp at hw
  · simp only [video_subcommands.handle_delete_video, if_neg hq] at hres
    cases hfind : video_subcommands.find_video (fs.getD []) q with
    | error e =>
      rw [hfind] at hres
      cases e with
      | NoVideoFound =>
        simp only [Option.some.injEq, Prod.mk.injEq] at hres
        obtain ⟨htr, -⟩ := hres
        subst htr
        rcases List.mem_append.mp hw with h' | h'
        · exact absurd h' (read_events_no_write _ _ _)
        · simp at h'
      | MultipleVideosFound counts =>
        simp only [Option.some.injEq, Prod.mk.injEq] at hres
        obtain ⟨htr, -⟩ := hres
        subst htr
        rcases List.mem_append.mp hw with h' | h'
        · exact absurd h' (read_events_no_write _ _ _)
        · exact absurd h' (video_subcommands.multiple_videos_events_no_write _ _ _ _ _)
    | ok video =>
      rw [hfind] at hres
      dsimp only at hres
      cases hidx : (fs.getD [] : List video_subcommands.Video).findIdx?
          (fun x => decide (x = video)) with
      | none =>
        rw [hidx] at hres
        simp only [Option.some.injEq, Prod.mk.injEq] at hres
        obtain ⟨htr, -⟩ := hres
        subst htr
        rcases List.mem_append.mp hw with h' | h'
        · exact absurd h' (read_events_no_write _ _ _)
        · simp at h'
      | some idx =>
        rw [hidx] at hres
        dsimp only at hres
        cases hc : (utilities.confirm inputs "Are you sure you want to delete this video?"
            (some (video_subcommands.video_debug video)) (some "Video deletion cancelled.")
            (some true)).2 with
        | none =>
          rw [hc] at hres
          simp at hres
        | some b =>
          rw [hc] at hres
          cases b with
          | false =>
            simp only [Option.some.injEq, Prod.mk.injEq] at hres
            obtain ⟨htr, -⟩ := hres
            subst htr
            rcases List.mem_append.mp hw with h' | h'
            · exact absurd h' (read_events_no_write _ _ _)
            · exact absurd h' (utilities.confirm_no_write _ _ _ _ _ _)
          | true => exact ⟨video, rfl, hc⟩

/-- C5: for every delete whose query resolves to a unique record, the
confirmation gate guards the removal: (i)/(iii) if the operator declines, the
handler returns with the collection exactly as loaded, emits the cancellation
message, and its event trace contains no file write; (ii)/(iv) conversely any
delete that writes the collection file ran the gate and received an
affirmative answer; (v) the gate's default answer is affirmative: an empty
input line is accepted (user loop) resp. resolves to `true` (video `confirm`
with default `Some(true)`). -/
theorem c5_delete_confirmation_gate :
    (∀ (fs : Option (List user_subcommands.User)) (q : user_subcommands.UserQuery)
        (inputs : List String) (u : user_subcommands.User),
      user_subcommands.find_user (fs.getD []) q = .ok u →
      (user_subcommands.delete_prompt_loop inputs).2 = some .cancel →
      user_subcommands.handle_delete_user fs q inputs =
        some (read_events user_subcommands.users_path fs ++
          Event.outMsg ("Are you sure you want to remove this user? ([Y]es/[n]o)\n" ++
            user_subcommands.user_debug u) :: (user_subcommands.delete_prompt_loop inputs).1,
          fs) ∧
      Event.outMsg "User deletion cancelled." ∈
        (user_subcommands.delete_prompt_loop inputs).1 ∧
      (∀ p, Event.writeFile p ∉
        read_events user_subcommands.users_path fs ++
          Event.outMsg ("Are you sure you want to remove this user? ([Y]es/[n]o)\n" ++
            user_subcommands.user_debug u) ::
              (user_subcommands.delete_prompt_loop inputs).1)) ∧
    (∀ (fs : Option (List user_subcommands.User)) (q : user_subcommands.UserQuery)
        (inputs : List String) (tr : List Event)
        (fs' : Option (List user_subcommands.User)) (p : String),
      user_subcommands.handle_delete_user fs q inputs = some (tr, fs') →
      Event.writeFile p ∈ tr →
      ∃ u es, user_subcommands.find_user (fs.getD []) q = .ok u ∧
        user_subcommands.delete_prompt_loop inputs = (es, some .accept) ∧
        Event.outMsg ("Are you sure you want to remove this user? ([Y]es/[n]o)\n" ++
          user_subcommands.user_debug u) ∈ tr) ∧
    (∀ (home : String) (fs : Option (List video_subcommands.Video))
        (q : video_subcommands.VideoQuery) (inputs : List String)
        (v : video_subcommands.Video),
      video_subcommands.find_video (fs.getD []) q = .ok v →
      (utilities.confirm inputs "Are you sure you want to delete this video?"
        (some (video_subcommands.video_debug v)) (some "Video deletion cancelled.")
        (some true)).2 = some false →
      video_subcommands.handle_delete_video home fs q inputs =
        some (read_events (video_subcommands.videos_path home) fs ++
          (utilities.confirm inputs "Are you sure you want to delete this video?"
            (some (video_subcommands.video_debug v)) (some "Video deletion cancelled.")
            (some true)).1, fs) ∧
      Event.outMsg "Video deletion cancelled." ∈
        (utilities.confirm inputs "Are you sure you want to delete this video?"
          (some (video_subcommands.video_debug v)) (some "Video deletion cancelled.")
          (some true)).1 ∧
      (∀ p, Event.writeFile p ∉
        read_events (video_subcommands.videos_path home) fs ++
          (utilities.confirm inputs "Are you sure you want to delete this video?"
            (some (video_subcommands.video_debug v)) (some "Video deletion cancelled.")
            (some true)).1)) ∧
    (∀ (home : String) (fs : Option (List video_subcommands.Video))
        (q : video_subcommands.VideoQuery) (inputs : List String) (tr : List Event)
        (fs' : Option (List video_subcommands.Video)) (p : String),
      video_subcommands.handle_delete_video home fs q inputs = some (tr, fs') →
      Event.writeFile p ∈ tr →
      ∃ v, video_subcommands.find_video (fs.getD []) q = .ok v ∧
        (utilities.confirm inputs "Are you sure you want to delete this video?"
          (some (video_subcommands.video_debug v)) (some "Video deletion cancelled.")
          (some true)).2 = some true) ∧
    (user_subcommands.delete_prompt_loop [""] = ([], some .accept) ∧
      ∀ (cm : Option String), utilities.confirm_loop [""] cm (some true) = ([], some true)) := by
  refine ⟨user_subcommands.user_delete_declined, user_subcommands.user_delete_write_implies_gate,
    video_subcommands.video_delete_declined, video_subcommands.video_delete_write_implies_gate,
    by decide, fun cm => rfl⟩

/-- Witness for C5 at a concrete input: a unique match deleted with the
single response line `"n"` is cancelled and nothing is written. -/
theorem c5_witness :
    user_subcommands.handle_delete_user (some [⟨1, "a", "x"⟩]) ⟨some 1, none, none⟩ ["n"] =
      some (read_events user_subcommands.users_path
          (some ([⟨1, "a", "x"⟩] : List user_subcommands.User)) ++
        Event.outMsg ("Are you sure you want to remove this user? ([Y]es/[n]o)\n" ++
          user_subcommands.user_debug ⟨1, "a", "x"⟩) ::
            (user_subcommands.delete_prompt_loop ["n"]).1,
        some ([⟨1, "a", "x"⟩] : List user_subcommands.User)) ∧
    Event.outMsg "User deletion cancelled." ∈ (user_subcommands.delete_prompt_loop ["n"]).1 ∧
    (∀ p, Event.writeFile p ∉
      read_events user_subcommands.users_path
          (some ([⟨1, "a", "x"⟩] : List user_subcommands.User)) ++
        Event.outMsg ("Are you sure you want to remove this user? ([Y]es/[n]o)\n" ++
          user_subcommands.user_debug ⟨1, "a", "x"⟩) ::
            (user_subcommands.delete_prompt_loop ["n"]).1) := by
  exact c5_delete_confirmation_gate.1 (some [⟨1, "a", "x"⟩]) ⟨some 1, none, none⟩ ["n"]
    ⟨1, "a", "x"⟩ rfl (by decide)

theorem user_subcommands.update_user_frame
    (fs : Option (List user_subcommands.User)) (args : user_subcommands.UpdateUser)
    (u : user_subcommands.User) (i : Nat)
    (hok : user_subcommands.find_user (fs.getD [])
      ⟨args.query_id, args.query_name, args.query_email⟩ = .ok u)
    (hidx : (fs.getD [] : List user_subcommands.User).findIdx?
      (fun x => decide (x = u)) = some i) :
    ∃ users', (user_subcommands.handle_update_user fs args).2 = some users' ∧
      users'.length = (fs.getD [] : List user_subcommands.User).length ∧
      (∀ j, j ≠ i → users'[j]? = (fs.getD [] : List user_subcommands.User)[j]?) ∧
      (users'.getD i default).id =
        ((fs.getD [] : List user_subcommands.User).getD i default).id ∧
      (args.new_name = none →
        (users'.getD i default).name =
          ((fs.getD [] : List user_subcommands.User).getD i default).name) ∧
      (args.new_email = none →
        (users'.getD i default).email =
          ((fs.getD [] : List user_subcommands.User).getD i default).email) := by
  have hne : ¬(args.query_id = none ∧ args.query_name = none ∧ args.query_email = none) := by
    rintro ⟨h1, h2, h3⟩
    rw [user_subcommands.find_user_no_query (fs.getD []) h1 h2 h3] at hok
    simp at hok
  obtain ⟨hlt, -⟩ := List.findIdx?_eq_some_iff_getElem.mp hidx
  rcases hn : args.new_name with _ | n <;> rcases he : args.new_email with _ | e
  · exact ⟨fs.getD [],
      by simp only [user_subcommands.handle_update_user, if_neg hne, hok, hidx, hn, he],
      rfl, fun j hj => rfl, rfl, fun h => rfl, fun h => rfl⟩
  · refine ⟨_,
      by simp only [user_subcommands.handle_update_user, if_neg hne, hok, hidx, hn, he]; rfl,
      ?_, ?_, ?_, ?_, ?_⟩
    · simp
    · intro j hj
      exact List.getElem?_set_ne (fun h => hj h.symm)
    · simp [List.getD_eq_getElem?_getD, List.getElem?_set_self, hlt]
    · intro h
      simp [List.getD_eq_getElem?_getD, List.getElem?_set_self, hlt]
    · intro h
      simp at h
  · refine ⟨_,
      by simp only [user_subcommands.handle_update_user, if_neg hne, hok, hidx, hn, he]; rfl,
      ?_, ?_, ?_, ?_, ?_⟩
    · simp
    · intro j hj
      exact List.getElem?_set_ne (fun h => hj h.symm)
    · simp [List.getD_eq_getElem?_getD, List.getElem?_set_self, hlt]
    · intro h
      simp at h
    · intro h
      simp [List.getD_eq_getElem?_getD, List.getElem?_set_self, hlt]
  · refine ⟨_,
      by simp only [user_subcommands.handle_update_user, if_neg hne, hok, hidx, hn, he]; rfl,
      ?_, ?_, ?_, ?_, ?_⟩
    · simp
    · intro j hj
      rw [List.getElem?_set_ne (fun h => hj h.symm),
        List.getElem?_set_ne (fun h => hj h.symm)]
    · simp [List.getD_eq_getElem?_getD, List.getElem?_set_self, List.length_set, hlt]
    · intro h
      simp at h
    · intro h
      simp at h

theorem video_subcommands.update_video_frame (home : String)
    (fs : Option (List video_subcommands.Video)) (args : video_subcommands.UpdateVideo)
    (inputs : List String) (v : video_subcommands.Video) (i : Nat) (tr : List Event)
    (vs' : List video_subcommands.Video)
    (hok : video_subcommands.find_video (fs.getD [])
      ⟨args.query_id, args.query_name⟩ = .ok v)
    (hidx : (fs.getD [] : List video_subcommands.Video).findIdx?
      (fun x => decide (x = v)) = some i)
    (hres : video_subcommands.handle_update_video home fs args inputs =
      some (tr, some vs')) :
    vs'.length = (fs.getD [] : List video_subcommands.Video).length ∧
    (∀ j, j ≠ i → vs'[j]? = (fs.getD [] : List video_subcommands.Video)[j]?) ∧
    (vs'.getD i default).id =
      ((fs.getD [] : List video_subcommands.Video).getD i default).id ∧
    (args.new_name = none →
      (vs'.getD i default).name =
        ((fs.getD [] : List video_subcommands.Video).getD i default).name) ∧
    (args.new_views = none →
      (vs'.getD i default).views =
        ((fs.getD [] : List video_subcommands.Video).getD i default).views) := by
  have hne : ¬(args.query_id = none ∧ args.query_name = none) := by
    rintro ⟨h1, h2⟩
    rw [video_subcommands.find_video_no_query (fs.getD []) h1 h2] at hok
    simp at hok
  obtain ⟨hlt, -⟩ := List.findIdx?_eq_some_iff_getElem.mp hidx
  simp only [video_subcommands.handle_update_video, if_neg hne, hok, hidx] at hres
  rcases hn : args.new_name with _ | n <;> rw [hn] at hres <;>
    rcases hv : args.new_views with _ | views <;> rw [hv] at hres <;>
    dsimp only at hres
  · simp only [Option.some.injEq, Prod.mk.injEq] at hres
    obtain ⟨-, hvs⟩ := hres
    subst hvs
    exact ⟨rfl, fun j hj => rfl, rfl, fun h => rfl, fun h => rfl⟩
  · cases hc : (utilities.confirm inputs
        ("Are you sure you want to set the views of " ++
          ((fs.getD [] : List video_subcommands.Video).getD i default).name ++ " to " ++
          toString views ++ "?") none (some "Video update aborted.") (some true)).2 with
    | none =>
      rw [hc] at hres
      simp at hres
    | some b =>
      rw [hc] at hres
      cases b with
      | false =>
        simp only [Option.some.injEq, Prod.mk.injEq] at hres
        obtain ⟨-, hvs⟩ := hres
        cases fs with
        | none => simp at hvs
        | some l =>
          injection hvs with hvs
          subst hvs
          exact ⟨rfl, fun j hj => rfl, rfl, fun h => rfl, fun h => rfl⟩
      | true =>
        simp only [Option.some.injEq, Prod.mk.injEq] at hres
        obtain ⟨-, hvs⟩ := hres
        subst hvs
        exact ⟨rfl, fun j hj => rfl, rfl, fun h => rfl, fun h => rfl⟩
  · simp only [Option.some.injEq, Prod.mk.injEq] at hres
    obtain ⟨-, hvs⟩ := hres
    subst hvs
    refine ⟨by simp, ?_, ?_, ?_, ?_⟩
    · intro j hj
      exact List.getElem?_set_ne (fun h => hj h.symm)
    · simp [List.getD_eq_getElem?_getD, List.getElem?_set_self, hlt]
    · intro h
      simp at h
    · intro h
      simp [List.getD_eq_getElem?_getD, List.getElem?_set_self, hlt]
  · cases hc : (utilities.confirm inputs
        ("Are you sure you want to set the views of " ++
          (((fs.getD [] : List video_subcommands.Video).set i
            { (fs.getD [] : List video_subcommands.Video).getD i default with
                name := n }).getD i default).name ++ " to " ++
          toString views ++ "?") none (some "Video update aborted.") (some true)).2 with
    | none =>
      rw [hc] at hres
      simp at hres
    | some b =>
      rw [hc] at hres
      cases b with
      | false =>
        simp only [Option.some.injEq, Prod.mk.injEq] at hres
        obtain ⟨-, hvs⟩ := hres
        cases fs with
        | none => simp at hvs
        | some l =>
          injection hvs with hvs
          subst hvs
          exact ⟨rfl, fun j hj => rfl, rfl, fun h => rfl, fun h => rfl⟩
      | true =>
        simp only [Option.some.injEq, Prod.mk.injEq] at hres
        obtain ⟨-, hvs⟩ := hres
        subst hvs
        refine ⟨by simp, ?_, ?_, ?_, ?_⟩
        · intro j hj
          exact List.getElem?_set_ne (fun h => hj h.symm)
        · simp [List.getD_eq_getElem?_getD, List.getElem?_set_self, hlt]
        · intro h
          simp at h
        · intro h
          simp at h

/-- C7: an update that resolves to a unique record changes only the fields
for which a new value was supplied: the collection keeps its length, every
other position is unchanged, the record's id is unchanged, and each field
with no supplied new value keeps its prior value. -/
theorem c7_update_sparse_frame :
    (∀ (fs : Option (List user_subcommands.User)) (args : user_subcommands.UpdateUser)
        (u : user_subcommands.User) (i : Nat),
      user_subcommands.find_user (fs.getD [])
        ⟨args.query_id, args.query_name, args.query_email⟩ = .ok u →
      (fs.getD [] : List user_subcommands.User).findIdx?
        (fun x => decide (x = u)) = some i →
      ∃ users', (user_subcommands.handle_update_user fs args).2 = some users' ∧
        users'.length = (fs.getD [] : List user_subcommands.User).length ∧
        (∀ j, j ≠ i → users'[j]? = (fs.getD [] : List user_subcommands.User)[j]?) ∧
        (users'.getD i default).id =
          ((fs.getD [] : List user_subcommands.User).getD i default).id ∧
        (args.new_name = none →
          (users'.getD i default).name =
            ((fs.getD [] : List user_subcommands.User).getD i default).name) ∧
        (args.new_email = none →
          (users'.getD i default).email =
            ((fs.getD [] : List user_subcommands.User).getD i default).email)) ∧
    (∀ (home : String) (fs : Option (List video_subcommands.Video))
        (args : video_subcommands.UpdateVideo) (inputs : List String)
        (v : video_subcommands.Video) (i : Nat) (tr : List Event)
        (vs' : List video_subcommands.Video),
      video_subcommands.find_video (fs.getD [])
        ⟨args.query_id, args.query_name⟩ = .ok v →
      (fs.getD [] : List video_subcommands.Video).findIdx?
        (fun x => decide (x = v)) = some i →
      video_subcommands.handle_update_video home fs args inputs = some (tr, some vs') →
      vs'.length = (fs.getD [] : List video_subcommands.Video).length ∧
      (∀ j, j ≠ i → vs'[j]? = (fs.getD [] : List video_subcommands.Video)[j]?) ∧
      (vs'.getD i default).id =
        ((fs.getD [] : List video_subcommands.Video).getD i default).id ∧
      (args.new_name = none →
        (vs'.getD i default).name =
          ((fs.getD [] : List video_subcommands.Video).getD i default).name) ∧
      (args.new_views = none →
        (vs'.getD i default).views =
          ((fs.getD [] : List video_subcommands.Video).getD i default).views)) :=
  ⟨user_subcommands.update_user_frame, video_subcommands.update_video_frame⟩

/-- Witness for C7 at a concrete input: updating only the name of the first
of two users leaves its id and email and the second user unchanged. -/
theorem c7_witness :
    ∃ users',
      (user_subcommands.handle_update_user
        (some [⟨1, "a", "x"⟩, ⟨2, "b", "y"⟩])
        ⟨some 1, none, none, some "c", none⟩).2 = some users' ∧
      users'.length =
        ((some [⟨1, "a", "x"⟩, ⟨2, "b", "y"⟩] :
          Option (List user_subcommands.User)).getD []).length ∧
      (∀ j, j ≠ 0 → users'[j]? =
        ((some [⟨1, "a", "x"⟩, ⟨2, "b", "y"⟩] :
          Option (List user_subcommands.User)).getD [])[j]?) ∧
      (users'.getD 0 default).id =
        (((some [⟨1, "a", "x"⟩, ⟨2, "b", "y"⟩] :
          Option (List user_subcommands.User)).getD []).getD 0 default).id ∧
      ((some "c" : Option String) = none →
        (users'.getD 0 default).name =
          (((some [⟨1, "a", "x"⟩, ⟨2, "b", "y"⟩] :
            Option (List user_subcommands.User)).getD []).getD 0 default).name) ∧
      ((none : Option String) = none →
        (users'.getD 0 default).email =
          (((some [⟨1, "a", "x"⟩, ⟨2, "b", "y"⟩] :
            Option (List user_subcommands.User)).getD []).getD 0 default).email) :=
  c7_update_sparse_frame.1 (some [⟨1, "a", "x"⟩, ⟨2, "b", "y"⟩])
    ⟨some 1, none, none, some "c", none⟩ ⟨1, "a", "x"⟩ 0 rfl (by decide)

/-- C8: the claim that all operations on the video collection share one fixed
file is false in the code: the video create/update/delete/list handlers use
the home-directory path while the view add/show handlers use the
working-directory-relative path, and these can never be the same string;
concretely, a video created via `handle_create_video` is then not found by
`handle_add_views` run against a fresh working directory, whose file is
untouched by the create. -/
theorem c8_video_and_view_paths_differ :
    (∀ home : String,
      video_subcommands.videos_path home ≠ view_subcommands.videos_path) ∧
    video_subcommands.handle_create_video "/home/user" none ⟨"test"⟩ [42] =
      some ([Event.writeFile (video_subcommands.videos_path "/home/user"),
        Event.outMsg "Video created successfully", Event.outMsg "ID: 42"],
        some [⟨42, "test", 0⟩]) ∧
    view_subcommands.handle_add_views none ⟨some "test", none, 1⟩ =
      ([Event.errMsg "Update failed. No video found from given query."], none) := by
  refine ⟨?_, by decide, by decide⟩
  intro home h
  simp only [video_subcommands.videos_path, view_subcommands.videos_path] at h
  have hlen := congrArg String.length h
  rw [String.length_append] at hlen
  have h1 : ("/.rustflix/videos.bc" : String).length = 20 := by decide
  have h2 : ("videos.bc" : String).length = 9 := by decide
  rw [h1, h2] at hlen
  omega

/-- C9 counterexample: the save sequence of the code (`File::create`
truncates in place, then the serializer writes) passes through a state — the
truncated empty file — that is neither the complete previous snapshot nor the
complete new snapshot, at the concrete old collection `[u1]` and new
collection `[u1, u2]`. -/
theorem c9_counterexample_truncated_state :
    ∃ st ∈ store.save_file_states (some (store.encode_users [⟨1, "a", "x"⟩]))
        [⟨1, "a", "x"⟩, ⟨2, "b", "y"⟩],
      st ≠ some (store.encode_users [⟨1, "a", "x"⟩]) ∧
      st ≠ some (store.encode_users [⟨1, "a", "x"⟩, ⟨2, "b", "y"⟩]) := by
  refine ⟨some [], by decide, by decide, by decide⟩

/-- C9 (amended): a save rewrites the collection file in place: it first
truncates the file and only then writes the new serialization, so the final
state after a completed save is the complete new snapshot, but the save
passes through an intermediate on-disk state (the empty file) that is
neither the previous nor the new snapshot — the replacement is not atomic. -/
theorem c9_save_not_atomic_truncate_then_write :
    ∀ (old new : List user_subcommands.User),
      (store.save_file_states (some (store.encode_users old)) new).getLastD none =
        some (store.encode_users new) ∧
      ∃ st ∈ (store.save_file_states (some (store.encode_users old)) new).dropLast,
        st ≠ some (store.encode_users old) ∧
        st ≠ some (store.encode_users new) := by
  intro old new
  have hne : ∀ l : List user_subcommands.User, store.encode_users l ≠ [] := by
    intro l h
    simp [store.encode_users, store.u64_le] at h
  refine ⟨rfl, some [], ?_, ?_, ?_⟩
  · show some [] ∈ [some (store.encode_users old), some []]
    exact List.mem_cons_of_mem _ (List.mem_cons_self _ _)
  · intro h
    injection h with h'
    exact hne old h'.symm
  · intro h
    injection h with h'
    exact hne new h'.symm

theorem user_subcommands.update_user_no_panic
    (fs : Option (List user_subcommands.User)) (args : user_subcommands.UpdateUser)
    (m : String) :
    Event.panicked m ∉ (user_subcommands.handle_update_user fs args).1 := by
  by_cases hq : args.query_id = none ∧ args.query_name = none ∧ args.query_email = none
  · simp [user_subcommands.handle_update_user, if_pos hq]
  · simp only [user_subcommands.handle_update_user, if_neg hq]
    cases hfind : user_subcommands.find_user (fs.getD [])
        ⟨args.query_id, args.query_name, args.query_email⟩ with
    | error e =>
      cases e with
      | NoUserFound =>
        intro hmem
        rcases List.mem_append.mp hmem with h' | h'
        · exact absurd h' (read_events_no_panic _ _ _)
        · simp at h'
      | MultipleUsersFound counts =>
        intro hmem
        rcases List.mem_append.mp hmem with h' | h'
        · exact absurd h' (read_events_no_panic _ _ _)
        · exact absurd h' (user_subcommands.multiple_users_events_no_panic _ _ _ _ _ _)
    | ok user =>
      have hidx := findIdx_decide_isSome_of_mem (user_subcommands.find_user_ok_mem hfind)
      obtain ⟨idx, hidx'⟩ := Option.isSome_iff_exists.mp hidx
      dsimp only
      rw [hidx']
      intro hmem
      rcases List.mem_append.mp hmem with h' | h'
      · rcases List.mem_append.mp h' with h'' | h''
        · rcases List.mem_append.mp h'' with h3 | h3
          · exact absurd h3 (read_events_no_panic _ _ _)
          · simp at h3
        · rcases hne : args.new_email with _ | e <;> rw [hne] at h'' <;> simp at h''
      · rcases hnn : args.new_name with _ | n <;> rw [hnn] at h' <;> simp at h'

theorem view_subcommands.add_views_no_panic
    (fs : Option (List video_subcommands.Video)) (args : view_subcommands.AddViews)
    (m : String) :
    Event.panicked m ∉ (view_subcommands.handle_add_views fs args).1 := by
  by_cases hq : args.name = none ∧ args.id = none
  · simp only [view_subcommands.handle_add_views, if_pos hq]
    intro hmem
    rcases List.mem_append.mp hmem with h' | h'
    · exact absurd h' (read_events_no_panic _ _ _)
    · simp at h'
  · simp only [view_subcommands.handle_add_views, if_neg hq]
    cases hfind : video_subcommands.find_video (fs.getD []) ⟨args.id, args.name⟩ with
    | error e =>
      cases e with
      | NoVideoFound =>
        intro hmem
        rcases List.mem_append.mp hmem with h' | h'
        · exact absurd h' (read_events_no_panic _ _ _)
        · simp at h'
      | MultipleVideosFound counts =>
        intro hmem
        rcases List.mem_append.mp hmem with h' | h'
        · exact absurd h' (read_events_no_panic _ _ _)
        · exact absurd h' (video_subcommands.multiple_videos_events_no_panic _ _ _ _ _)
    | ok video =>
      have hidx := findIdx_decide_isSome_of_mem (video_subcommands.find_video_ok_mem hfind)
      obtain ⟨idx, hidx'⟩ := Option.isSome_iff_exists.mp hidx
      dsimp only
      rw [hidx']
      intro hmem
      rcases List.mem_append.mp hmem with h' | h'
      · exact absurd h' (read_events_no_panic _ _ _)
      · simp at h'

theorem user_subcommands.delete_user_no_panic
    (fs : Option (List user_subcommands.User)) (q : user_subcommands.UserQuery)
    (inputs : List String) (r : List Event × Option (List user_subcommands.User))
    (m : String)
    (hres : user_subcommands.handle_delete_user fs q inputs = some r) :
    Event.panicked m ∉ r.1 := by
  by_cases hq : q.id = none ∧ q.name = none ∧ q.email = none
  · simp only [user_subcommands.handle_delete_user, if_pos hq, Option.some.injEq] at hres
    subst hres
    simp
  · simp only [user_subcommands.handle_delete_user, if_neg hq] at hres
    cases hfind : user_subcommands.find_user (fs.getD []) q with
    | error e =>
      rw [hfind] at hres
      cases e with
      | NoUserFound =>
        simp only [Option.some.injEq] at hres
        subst hres
        intro hmem
        rcases List.mem_append.mp hmem with h' | h'
        · exact absurd h' (read_events_no_panic _ _ _)
        · simp at h'
      | MultipleUsersFound counts =>
        simp only [Option.some.injEq] at hres
        subst hres
        intro hmem
        rcases List.mem_append.mp hmem with h' | h'
        · exact absurd h' (read_events_no_panic _ _ _)
        · exact absurd h' (user_subcommands.multiple_users_events_no_panic _ _ _ _ _ _)
    | ok user =>
      rw [hfind] at hres
      dsimp only at hres
      have hidx := findIdx_decide_isSome_of_mem (user_subcommands.find_user_ok_mem hfind)
      obtain ⟨idx, hidx'⟩ := Option.isSome_iff_exists.mp hidx
      rw [hidx'] at hres
      rcases hloop : user_subcommands.delete_prompt_loop inputs with ⟨es, ans⟩
      rw [hloop] at hres
      have hes : (user_subcommands.delete_prompt_loop inputs).1 = es := by
        rw [hloop]
      cases ans with
      | none => simp at hres
      | some a =>
        cases a with
        | cancel =>
          simp only [Option.some.injEq] at hres
          subst hres
          intro hmem
          rcases List.mem_append.mp hmem with h' | h'
          · exact absurd h' (read_events_no_panic _ _ _)
          · rcases List.mem_cons.mp h' with h'' | h''
            · simp at h''
            · rw [← hes] at h''
              exact absurd h'' (user_subcommands.delete_prompt_loop_no_panic inputs m)
        | accept =>
          simp only [Option.some.injEq] at hres
          subst hres
          intro hmem
          rcases List.mem_append.mp hmem with h' | h'
          · rcases List.mem_append.mp h' with h1 | h1
            · exact absurd h1 (read_events_no_panic _ _ _)
            · rcases List.mem_cons.mp h1 with h2 | h2
              · simp at h2
              · rw [← hes] at h2
                exact absurd h2 (user_subcommands.delete_prompt_loop_no_panic inputs m)
          · simp at h' 

theorem video_subcommands.update_video_no_panic (home : String)
    (fs : Option (List video_subcommands.Video)) (args : video_subcommands.UpdateVideo)
    (inputs : List String) (r : List Event × Option (List video_subcommands.Video))
    (m : String)
    (hres : video_subcommands.handle_update_video home fs args inputs = some r) :
    Event.panicked m ∉ r.1 := by
  by_cases hq : args.query_id = none ∧ args.query_name = none
  · simp only [video_subcommands.handle_update_video, if_pos hq, Option.some.injEq] at hres
    subst hres
    simp
  · simp only [video_subcommands.handle_update_video, if_neg hq] at hres
    cases hfind : video_subcommands.find_video (fs.getD [])
        ⟨args.query_id, args.query_name⟩ with
    | error e =>
      rw [hfind] at hres
      cases e with
      | NoVideoFound =>
        simp only [Option.some.injEq] at hres
        subst hres
        intro hmem
        rcases List.mem_append.mp hmem with h' | h'
        · exact absurd h' (read_events_no_panic _ _ _)
        · simp at h'
      | MultipleVideosFound counts =>
        simp only [Option.some.injEq] at hres
        subst hres
        intro hmem
        rcases List.mem_append.mp hmem with h' | h'
        · exact absurd h' (read_events_no_panic _ _ _)
        · exact absurd h' (video_subcommands.multiple_videos_events_no_panic _ _ _ _ _)
    | ok video =>
      rw [hfind] at hres
      dsimp only at hres
      have hidx := findIdx_decide_isSome_of_mem (video_subcommands.find_video_ok_mem hfind)
      obtain ⟨idx, hidx'⟩ := Option.isSome_iff_exists.mp hidx
      rw [hidx'] at hres
      dsimp only at hres
      have hsuccess : ∀ (l1 l2 : List Event),
          (∀ x ∈ l1, ∀ mm, x ≠ Event.panicked mm) → (∀ x ∈ l2, ∀ mm, x ≠ Event.panicked mm) →
          Event.panicked m ∉ l1 ++ l2 := by
        intro l1 l2 h1 h2 hmem
        rcases List.mem_append.mp hmem with h' | h'
        · exact h1 _ h' m rfl
        · exact h2 _ h' m rfl
      cases hv : args.new_views with
      | none =>
        rw [hv] at hres
        simp only [Option.some.injEq] at hres
        subst hres
        intro hmem
        rcases List.mem_append.mp hmem with h' | h'
        · exact absurd h' (read_events_no_panic _ _ _)
        · rcases List.mem_append.mp h' with h1 | h1
          · simp at h1
          · rcases hnn : args.new_name with _ | n <;> rw [hnn] at h1 <;> simp at h1
      | some views =>
        rw [hv] at hres
        dsimp only at hres
        cases hc : (utilities.confirm inputs
            ("Are you sure you want to set the views of " ++
              ((match args.new_name with
                | some name =>
                  (fs.getD [] : List video_subcommands.Video).set idx
                    { (fs.getD [] : List video_subcommands.Video).getD idx default with
                        name := name }
                | none => fs.getD []).getD idx default).name ++ " to " ++
              toString views ++ "?") none (some "Video update aborted.") (some true)).2 with
        | none =>
          rw [hc] at hres
          simp at hres
        | some b =>
          rw [hc] at hres
          cases b with
          | false =>
            simp only [Option.some.injEq] at hres
            subst hres
            intro hmem
            rcases List.mem_append.mp hmem with h' | h'
            · exact absurd h' (read_events_no_panic _ _ _)
            · exact absurd h' (utilities.confirm_no_panic _ _ _ _ _ _)
          | true =>
            simp only [Option.some.injEq] at hres
            subst hres
            intro hmem
            rcases List.mem_append.mp hmem with h' | h'
            · rcases List.mem_append.mp h' with h1 | h1
              · exact absurd h1 (read_events_no_panic _ _ _)
              · exact absurd h1 (utilities.confirm_no_panic _ _ _ _ _ _)
            · rcases List.mem_append.mp h' with h1 | h1
              · simp at h1
              · rcases hnn : args.new_name with _ | n <;> rw [hnn] at h1 <;> simp at h1

theorem video_subcommands.delete_video_no_panic (home : String)
    (fs : Option (List video_subcommands.Video)) (q : video_subcommands.VideoQuery)
    (inputs : List String) (r : List Event × Option (List video_subcommands.Video))
    (m : String)
    (hres : video_subcommands.handle_delete_video home fs q inputs = some r) :
    Event.panicked m ∉ r.1 := by
  by_cases hq : q.id = none ∧ q.name = none
  · simp only [video_subcommands.handle_delete_video, if_pos hq, Option.some.injEq] at hres
    subst hres
    simp
  · simp only [video_subcommands.handle_delete_video, if_neg hq] at hres
    cases hfind : video_subcommands.find_video (fs.getD []) q with
    | error e =>
      rw [hfind] at hres
      cases e with
      | NoVideoFound =>
        simp only [Option.some.injEq] at hres
        subst hres
        intro hmem
        rcases List.mem_append.mp hmem with h' | h'
        · exact absurd h' (read_events_no_panic _ _ _)
        · simp at h'
      | MultipleVideosFound counts =>
        simp only [Option.some.injEq] at hres
        subst hres
        intro hmem
        rcases List.mem_append.mp hmem with h' | h'
        · exact absurd h' (read_events_no_panic _ _ _)
        · exact absurd h' (video_subcommands.multiple_videos_events_no_panic _ _ _ _ _)
    | ok video =>
      rw [hfind] at hres
      dsimp only at hres
      have hidx := findIdx_decide_isSome_of_mem (video_subcommands.find_video_ok_mem hfind)
      obtain ⟨idx, hidx'⟩ := Option.isSome_iff_exists.mp hidx
      rw [hidx'] at hres
      dsimp only at hres
      cases hc : (utilities.confirm inputs "Are you sure you want to delete this video?"
          (some (video_subcommands.video_debug video)) (some "Video deletion cancelled.")
          (some true)).2 with
      | none =>
        rw [hc] at hres
        simp at hres
      | some b =>
        rw [hc] at hres
        cases b with
        | false =>
          simp only [Option.some.injEq] at hres
          subst hres
          intro hmem
          rcases List.mem_append.mp hmem with h' | h'
          · exact absurd h' (read_events_no_panic _ _ _)
          · exact absurd h' (utilities.confirm_no_panic _ _ _ _ _ _)
        | true =>
          simp only [Option.some.injEq] at hres
          subst hres
          intro hmem
          rcases List.mem_append.mp hmem with h' | h'
          · rcases List.mem_append.mp h' with h1 | h1
            · exact absurd h1 (read_events_no_panic _ _ _)
            · exact absurd h1 (utilities.confirm_no_panic _ _ _ _ _ _)
          · simp at h'

/-- C10: whenever the single-target matcher returns a unique record,
re-locating that record in the collection by identity
(`iter().position(|u| u == user)`) always succeeds, so the
"was found but its index wasn't" panic branch is unreachable: no trace of the
update, delete, or add-views handlers ever contains a panic event. -/
theorem c10_unique_relocation_no_panic :
    (∀ (users : List user_subcommands.User) (q : user_subcommands.UserQuery)
        (u : user_subcommands.User),
      user_subcommands.find_user users q = .ok u →
      (users.findIdx? (fun x => decide (x = u))).isSome = true) ∧
    (∀ (videos : List video_subcommands.Video) (q : video_subcommands.VideoQuery)
        (v : video_subcommands.Video),
      video_subcommands.find_video videos q = .ok v →
      (videos.findIdx? (fun x => decide (x = v))).isSome = true) ∧
    (∀ (fs : Option (List user_subcommands.User)) (args : user_subcommands.UpdateUser)
        (m : String),
      Event.panicked m ∉ (user_subcommands.handle_update_user fs args).1) ∧
    (∀ (fs : Option (List user_subcommands.User)) (q : user_subcommands.UserQuery)
        (inputs : List String) (r : List Event × Option (List user_subcommands.User))
        (m : String),
      user_subcommands.handle_delete_user fs q inputs = some r →
      Event.panicked m ∉ r.1) ∧
    (∀ (fs : Option (List video_subcommands.Video)) (args : view_subcommands.AddViews)
        (m : String),
      Event.panicked m ∉ (view_subcommands.handle_add_views fs args).1) ∧
    (∀ (home : String) (fs : Option (List video_subcommands.Video))
        (args : video_subcommands.UpdateVideo) (inputs : List String)
        (r : List Event × Option (List video_subcommands.Video)) (m : String),
      video_subcommands.handle_update_video home fs args inputs = some r →
      Event.panicked m ∉ r.1) ∧
    (∀ (home : String) (fs : Option (List video_subcommands.Video))
        (q : video_subcommands.VideoQuery) (inputs : List String)
        (r : List Event × Option (List video_subcommands.Video)) (m : String),
      video_subcommands.handle_delete_video home fs q inputs = some r →
      Event.panicked m ∉ r.1) :=
  ⟨fun _ _ _ h => findIdx_decide_isSome_of_mem (user_subcommands.find_user_ok_mem h),
    fun _ _ _ h => findIdx_decide_isSome_of_mem (video_subcommands.find_video_ok_mem h),
    user_subcommands.update_user_no_panic,
    fun fs q inputs r m h => user_subcommands.delete_user_no_panic fs q inputs r m h,
    view_subcommands.add_views_no_panic,
    fun home fs args inputs r m h =>
      video_subcommands.update_video_no_panic home fs args inputs r m h,
    fun home fs q inputs r m h =>
      video_subcommands.delete_video_no_panic home fs q inputs r m h⟩

/-- Witness for C10 at a concrete input: the unique match is re-locatable and
a concrete update run contains no panic event. -/
theorem c10_witness :
    (([⟨1, "a", "x"⟩] : List user_subcommands.User).findIdx?
      (fun x => decide (x = (⟨1, "a", "x"⟩ : user_subcommands.User)))).isSome = true ∧
    ∀ m, Event.panicked m ∉
      (user_subcommands.handle_update_user (some [⟨1, "a", "x"⟩])
        ⟨some 1, none, none, some "c", none⟩).1 :=
  ⟨c10_unique_relocation_no_panic.1 [⟨1, "a", "x"⟩] ⟨some 1, none, none⟩ ⟨1, "a", "x"⟩ rfl,
    fun m => c10_unique_relocation_no_panic.2.2.1 (some [⟨1, "a", "x"⟩])
      ⟨some 1, none, none, some "c", none⟩ m⟩
